import Mathlib

/-
  Verification development for the website-parsing module
  (resources/lib/api/website.py) of a Kodi video plugin.

  The module extracts embedded JSON blocks from an HTML page, repairs their
  escaping, parses them, navigates the resulting trees and persists selected
  fields into local stores.  Python values are embedded as the inductive
  type JVal (None becomes JVal.null), Python exceptions as the inductive
  type Err, and the side-effecting orchestrators as explicit state-passing
  functions over a World record.  All functions are executable and reduce by
  kernel computation.
-/

set_option maxHeartbeats 2000000
set_option maxRecDepth 4096

namespace NF

/-- Embedded Python/JSON values.  Floats are kept syntactically as
sign, decimal mantissa and power-of-ten scale (value = +-mant * 10^scale),
exactly as written in the literal; IEEE-754 rounding is not modelled (no
claim depends on float rounding).  NaN and the infinities are the values
produced by the default JSON constants. -/
inductive JVal where
  | null
  | bool (b : Bool)
  | num (n : Int)
  | jfloat (neg : Bool) (mant : Nat) (scale : Int)
  | nan
  | inf (neg : Bool)
  | str (s : String)
  | arr (items : List JVal)
  | obj (entries : List (String × JVal))

/-- Python exception kinds that can arise in the embedded fragment.
keyError and typeError stand for the KeyNotFoundError / TypeMismatchError
kinds of the path navigator; the remaining constructors mirror the
exception classes raised or caught by the source. -/
inductive Err where
  | websiteParsingError (msg : String)
  | invalidAuthURLError (msg : String)
  | invalidMembershipStatusAnonymous
  | invalidMembershipStatusError (status : JVal)
  | invalidProfilesError (msg : Option String)
  | loginValidateError (msg : String)
  | loginValidateErrorIncorrectPassword (msg : String)
  | profilesMissing
  | keyError (k : String)
  | typeError
  | attributeError
  | indexError
  | valueError
  | unicodeDecodeError
  | jsonDecodeError
  | recursionError

/- ------------------------------------------------------------------ -/
/- Basic character/string helpers                                     -/
/- ------------------------------------------------------------------ -/

/-- Is the pattern a prefix of the list (character-exact match). -/
def matchesAt : List Char → List Char → Bool
  | [], _ => true
  | _ :: _, [] => false
  | p :: ps, c :: cs => p = c && matchesAt ps cs

/-- Drop the first n elements of a character list. -/
def dropN : Nat → List Char → List Char
  | 0, s => s
  | _ + 1, [] => []
  | n + 1, _ :: rest => dropN n rest

/-- Python str.replace semantics: left-to-right, non-overlapping
replacement of every occurrence of pat by rep (pat nonempty here).
Fuel bounds the recursion; each step consumes at least one character. -/
def replaceFuel (pat rep : List Char) : Nat → List Char → List Char
  | 0, s => s
  | _ + 1, [] => []
  | fuel + 1, c :: rest =>
    if matchesAt pat (c :: rest) then
      rep ++ replaceFuel pat rep fuel (dropN pat.length (c :: rest))
    else
      c :: replaceFuel pat rep fuel rest

/-- Python s.replace(pat, rep) on character lists. -/
def pyReplace (s pat rep : List Char) : List Char :=
  replaceFuel pat rep s.length s

/-- The whitespace class of the regex module restricted to ASCII
(space, tab, newline, carriage return, vertical tab, form feed). -/
def isSpacePy (c : Char) : Bool :=
  c = ' ' || c = '\t' || c = '\n' || c = '\r' || c = '\x0b' || c = '\x0c'

/-- Drop leading regex whitespace. -/
def dropSpaces : List Char → List Char
  | [] => []
  | c :: rest => if isSpacePy c then dropSpaces rest else c :: rest

/- ------------------------------------------------------------------ -/
/- The JSON_REGEX match                                               -/
/- netflix\.NAME\s*=\s*(.*?);\s*</script>   with DOTALL               -/
/- ------------------------------------------------------------------ -/

/-- Scan for the non-greedy capture end: the first position where a
semicolon followed by optional whitespace and the literal closing script
tag occurs.  Returns the captured text (accumulated in reverse). -/
def capScan (acc : List Char) : List Char → Option (List Char)
  | [] => none
  | ';' :: rest =>
    if matchesAt "</script>".data (dropSpaces rest) then
      some acc.reverse
    else
      capScan (';' :: acc) rest
  | c :: rest => capScan (c :: acc) rest

/-- Try to match the whole pattern at the current position: the literal
netflix.NAME, optional whitespace, an equals sign, optional whitespace,
then the minimal capture up to the closing script tag. -/
def tryMatchAt (name : List Char) (s : List Char) : Option (List Char) :=
  if matchesAt ("netflix.".data ++ name) s then
    match dropSpaces (dropN ("netflix.".data ++ name).length s) with
    | '=' :: rest => capScan [] (dropSpaces rest)
    | _ => none
  else
    none

/-- Leftmost match of the block pattern: try every start position from the
left, first success wins (this is the first element of findall). -/
def findBlock (name : List Char) : List Char → Option (List Char)
  | [] => none
  | c :: rest =>
    match tryMatchAt name (c :: rest) with
    | some r => some r
    | none => findBlock name rest

/- ------------------------------------------------------------------ -/
/- UTF-8 encode / decode                                              -/
/- ------------------------------------------------------------------ -/

/-- UTF-8 encoding of one code point (standard 1 to 4 byte forms). -/
def utf8EncodeChar (c : Char) : List Nat :=
  let n := c.toNat
  if n < 0x80 then [n]
  else if n < 0x800 then [0xC0 + n / 0x40, 0x80 + n % 0x40]
  else if n < 0x10000 then
    [0xE0 + n / 0x1000, 0x80 + (n / 0x40) % 0x40, 0x80 + n % 0x40]
  else
    [0xF0 + n / 0x40000, 0x80 + (n / 0x1000) % 0x40,
     0x80 + (n / 0x40) % 0x40, 0x80 + n % 0x40]

/-- UTF-8 encoding of a character list. -/
def utf8Encode : List Char → List Nat
  | [] => []
  | c :: rest => utf8EncodeChar c ++ utf8Encode rest

/-- Is the byte a UTF-8 continuation byte. -/
def isCont (b : Nat) : Bool := 0x80 ≤ b && b ≤ 0xBF

/-- Strict UTF-8 decoding (rejects overlong forms, surrogates and
out-of-range values, as the Python utf-8 codec does).  Fuel bounds the
recursion; each step consumes at least one byte. -/
def utf8DecodeFuel : Nat → List Nat → Option (List Char)
  | 0, [] => some []
  | 0, _ :: _ => none
  | _ + 1, [] => some []
  | fuel + 1, b :: rest =>
    if b < 0x80 then
      (utf8DecodeFuel fuel rest).map (fun cs => Char.ofNat b :: cs)
    else if 0xC2 ≤ b && b ≤ 0xDF then
      match rest with
      | b2 :: rest2 =>
        if isCont b2 then
          (utf8DecodeFuel fuel rest2).map
            (fun cs => Char.ofNat ((b - 0xC0) * 0x40 + (b2 - 0x80)) :: cs)
        else none
      | _ => none
    else if 0xE0 ≤ b && b ≤ 0xEF then
      match rest with
      | b2 :: b3 :: rest3 =>
        let lowOk :=
          if b = 0xE0 then 0xA0 ≤ b2 && b2 ≤ 0xBF
          else if b = 0xED then 0x80 ≤ b2 && b2 ≤ 0x9F
          else isCont b2
        if lowOk && isCont b3 then
          (utf8DecodeFuel fuel rest3).map
            (fun cs =>
              Char.ofNat ((b - 0xE0) * 0x1000 + (b2 - 0x80) * 0x40 + (b3 - 0x80)) :: cs)
        else none
      | _ => none
    else if 0xF0 ≤ b && b ≤ 0xF4 then
      match rest with
      | b2 :: b3 :: b4 :: rest4 =>
        let lowOk :=
          if b = 0xF0 then 0x90 ≤ b2 && b2 ≤ 0xBF
          else if b = 0xF4 then 0x80 ≤ b2 && b2 ≤ 0x8F
          else isCont b2
        if lowOk && isCont b3 && isCont b4 then
          (utf8DecodeFuel fuel rest4).map
            (fun cs =>
              Char.ofNat ((b - 0xF0) * 0x40000 + (b2 - 0x80) * 0x1000 +
                          (b3 - 0x80) * 0x40 + (b4 - 0x80)) :: cs)
        else none
      | _ => none
    else none

/-- bytes.decode with the utf-8 codec. -/
def utf8Decode (bs : List Nat) : Option (List Char) :=
  utf8DecodeFuel bs.length bs

/- ------------------------------------------------------------------ -/
/- unicode_escape decoding (bytes to text)                            -/
/- ------------------------------------------------------------------ -/

/-- Hex digit value. -/
def hexVal (b : Nat) : Option Nat :=
  if 0x30 ≤ b && b ≤ 0x39 then some (b - 0x30)
  else if 0x61 ≤ b && b ≤ 0x66 then some (b - 0x61 + 10)
  else if 0x41 ≤ b && b ≤ 0x46 then some (b - 0x41 + 10)
  else none

/-- Read exactly n hex digits from a byte list. -/
def readHex : Nat → List Nat → Option (Nat × List Nat)
  | 0, bs => some (0, bs)
  | _ + 1, [] => none
  | n + 1, b :: rest =>
    match hexVal b with
    | none => none
    | some d =>
      match readHex n rest with
      | none => none
      | some (v, rest2) => some (d * 16 ^ n + v, rest2)

/-- Octal digit value. -/
def octVal (b : Nat) : Option Nat :=
  if 0x30 ≤ b && b ≤ 0x37 then some (b - 0x30) else none

/-- Python unicode_escape decoding of a byte string.  Non-escape bytes are
taken as latin-1 code points.  Recognized escapes follow the codec:
backslash-newline is a line continuation; the single-character escapes,
up-to-three-digit octal escapes, \xHH, \uHHHH and \UHHHHHHHH are decoded;
any other backslash sequence is kept as the two literal characters.
Divergences from the codec (none reachable by the claims): \N named
escapes and escapes denoting lone UTF-16 surrogates are rejected here,
while the codec resolves or keeps them. -/
def uescFuel : Nat → List Nat → Except Err (List Char)
  | 0, [] => .ok []
  | 0, _ :: _ => .error .unicodeDecodeError
  | _ + 1, [] => .ok []
  | fuel + 1, b :: rest =>
    if b ≠ 0x5C then
      (uescFuel fuel rest).map (fun cs => Char.ofNat b :: cs)
    else
      match rest with
      | [] => .error .unicodeDecodeError
      | e :: rest2 =>
        if e = 0x0A then uescFuel fuel rest2
        else if e = 0x5C then (uescFuel fuel rest2).map (fun cs => '\\' :: cs)
        else if e = 0x27 then (uescFuel fuel rest2).map (fun cs => '\'' :: cs)
        else if e = 0x22 then (uescFuel fuel rest2).map (fun cs => '\"' :: cs)
        else if e = 0x61 then (uescFuel fuel rest2).map (fun cs => '\x07' :: cs)
        else if e = 0x62 then (uescFuel fuel rest2).map (fun cs => '\x08' :: cs)
        else if e = 0x66 then (uescFuel fuel rest2).map (fun cs => '\x0c' :: cs)
        else if e = 0x6E then (uescFuel fuel rest2).map (fun cs => '\n' :: cs)
        else if e = 0x72 then (uescFuel fuel rest2).map (fun cs => '\r' :: cs)
        else if e = 0x74 then (uescFuel fuel rest2).map (fun cs => '\t' :: cs)
        else if e = 0x76 then (uescFuel fuel rest2).map (fun cs => '\x0b' :: cs)
        else if (octVal e).isSome then
          match rest2 with
          | d2 :: d3 :: rest4 =>
            match octVal e, octVal d2, octVal d3 with
            | some v1, some v2, some v3 =>
              (uescFuel fuel rest4).map
                (fun cs => Char.ofNat (v1 * 64 + v2 * 8 + v3) :: cs)
            | some v1, some v2, none =>
              (uescFuel fuel (d3 :: rest4)).map
                (fun cs => Char.ofNat (v1 * 8 + v2) :: cs)
            | some v1, none, _ =>
              (uescFuel fuel (d2 :: d3 :: rest4)).map
                (fun cs => Char.ofNat v1 :: cs)
            | none, _, _ => .error .unicodeDecodeError
          | [d2] =>
            match octVal e, octVal d2 with
            | some v1, some v2 =>
              (uescFuel fuel []).map (fun cs => Char.ofNat (v1 * 8 + v2) :: cs)
            | some v1, none =>
              (uescFuel fuel [d2]).map (fun cs => Char.ofNat v1 :: cs)
            | none, _ => .error .unicodeDecodeError
          | [] =>
            match octVal e with
            | some v1 => .ok [Char.ofNat v1]
            | none => .error .unicodeDecodeError
        else if e = 0x78 then
          match readHex 2 rest2 with
          | some (v, rest3) => (uescFuel fuel rest3).map (fun cs => Char.ofNat v :: cs)
          | none => .error .unicodeDecodeError
        else if e = 0x75 then
          match readHex 4 rest2 with
          | some (v, rest3) =>
            if 0xD800 ≤ v && v ≤ 0xDFFF then .error .unicodeDecodeError
            else (uescFuel fuel rest3).map (fun cs => Char.ofNat v :: cs)
          | none => .error .unicodeDecodeError
        else if e = 0x55 then
          match readHex 8 rest2 with
          | some (v, rest3) =>
            if v > 0x10FFFF || (0xD800 ≤ v && v ≤ 0xDFFF) then
              .error .unicodeDecodeError
            else (uescFuel fuel rest3).map (fun cs => Char.ofNat v :: cs)
          | none => .error .unicodeDecodeError
        else if e = 0x4E then .error .unicodeDecodeError
        else
          (uescFuel fuel rest2).map (fun cs => '\\' :: Char.ofNat e :: cs)

/-- text.encode().decode(unicode_escape) as one operation on bytes. -/
def unicodeEscapeBytes (bs : List Nat) : Except Err (List Char) :=
  uescFuel bs.length bs

/- ------------------------------------------------------------------ -/
/- The final backslash re-escape: sub of a backslash not followed by a  -/
/- double quote with a doubled backslash                               -/
/- ------------------------------------------------------------------ -/

/-- re.sub with pattern backslash-not-before-quote and replacement of two
backslashes: scans left to right; a backslash whose next character is a
double quote is left alone, every other backslash is doubled. -/
def subDouble : List Char → List Char
  | [] => []
  | '\\' :: rest =>
    match rest with
    | '\"' :: _ => '\\' :: subDouble rest
    | _ => '\\' :: '\\' :: subDouble rest
  | c :: rest => c :: subDouble rest

/- ------------------------------------------------------------------ -/
/- json.loads                                                          -/
/- ------------------------------------------------------------------ -/

/-- JSON whitespace accepted between tokens. -/
def skipWsJ : List Char → List Char
  | [] => []
  | c :: rest =>
    if c = ' ' || c = '\t' || c = '\n' || c = '\r' then skipWsJ rest
    else c :: rest

/-- Hex digit value of a character. -/
def hexValC (c : Char) : Option Nat := hexVal c.toNat

/-- Read exactly n hex digit characters. -/
def readHexC : Nat → List Char → Option (Nat × List Char)
  | 0, s => some (0, s)
  | _ + 1, [] => none
  | n + 1, c :: rest =>
    match hexValC c with
    | none => none
    | some d =>
      match readHexC n rest with
      | none => none
      | some (v, rest2) => some (d * 16 ^ n + v, rest2)

/-- Strict JSON string body scanning, after the opening double quote.
Raw control characters are rejected (strict mode).  The escapes are the
eight single-character ones and \uHHHH with UTF-16 surrogate pairs
combined.  Divergence from the Python scanner (unreachable by the
claims): a lone surrogate escape is rejected here, while Python keeps it
as a lone surrogate code unit. -/
def parseJString : Nat → List Char → List Char → Except Err (String × List Char)
  | 0, _, _ => .error .jsonDecodeError
  | _ + 1, [], _ => .error .jsonDecodeError
  | fuel + 1, c :: rest, acc =>
    if c = '\"' then .ok (String.mk acc.reverse, rest)
    else if c = '\\' then
      match rest with
      | [] => .error .jsonDecodeError
      | e :: rest2 =>
        if e = '\"' then parseJString fuel rest2 ('\"' :: acc)
        else if e = '\\' then parseJString fuel rest2 ('\\' :: acc)
        else if e = '/' then parseJString fuel rest2 ('/' :: acc)
        else if e = 'b' then parseJString fuel rest2 ('\x08' :: acc)
        else if e = 'f' then parseJString fuel rest2 ('\x0c' :: acc)
        else if e = 'n' then parseJString fuel rest2 ('\n' :: acc)
        else if e = 'r' then parseJString fuel rest2 ('\r' :: acc)
        else if e = 't' then parseJString fuel rest2 ('\t' :: acc)
        else if e = 'u' then
          match readHexC 4 rest2 with
          | none => .error .jsonDecodeError
          | some (v, rest3) =>
            if 0xD800 ≤ v && v ≤ 0xDBFF then
              match rest3 with
              | '\\' :: 'u' :: rest4 =>
                match readHexC 4 rest4 with
                | none => .error .jsonDecodeError
                | some (w, rest5) =>
                  if 0xDC00 ≤ w && w ≤ 0xDFFF then
                    parseJString fuel rest5
                      (Char.ofNat (0x10000 + (v - 0xD800) * 0x400 + (w - 0xDC00)) :: acc)
                  else .error .jsonDecodeError
              | _ => .error .jsonDecodeError
            else if 0xDC00 ≤ v && v ≤ 0xDFFF then .error .jsonDecodeError
            else parseJString fuel rest3 (Char.ofNat v :: acc)
        else .error .jsonDecodeError
    else if c.toNat < 0x20 then .error .jsonDecodeError
    else parseJString fuel rest (c :: acc)

/-- Is the character a decimal digit. -/
def isDigitC (c : Char) : Bool := '0' ≤ c && c ≤ '9'

/-- Take leading decimal digits. -/
def takeDigits : List Char → List Char × List Char
  | [] => ([], [])
  | c :: rest =>
    if isDigitC c then
      let p := takeDigits rest
      (c :: p.1, p.2)
    else ([], c :: rest)

/-- Decimal value of a digit list. -/
def digitsToNat (ds : List Char) : Nat :=
  ds.foldl (fun a c => a * 10 + (c.toNat - 0x30)) 0

/-- The JSON number token, following NUMBER_RE: an optional minus sign, an
integer part that is either zero or has no leading zero, an optional
fraction of one or more digits, an optional exponent.  A pure integer
literal gives an int; otherwise a syntactic float. -/
def parseNumber (s : List Char) : Except Err (JVal × List Char) :=
  let core : List Char → Bool → Except Err (JVal × List Char) := fun t neg =>
    let intPart : Option (List Char × List Char) :=
      match t with
      | '0' :: rest => some (['0'], rest)
      | c :: rest =>
        if isDigitC c && c ≠ '0' then
          let p := takeDigits rest
          some (c :: p.1, p.2)
        else none
      | [] => none
    match intPart with
    | none => .error .jsonDecodeError
    | some (ids, r1) =>
      let fracPart : Option (List Char × List Char) :=
        match r1 with
        | '.' :: r2 =>
          match takeDigits r2 with
          | ([], _) => none
          | (ds, r3) => some (ds, r3)
        | _ => none
      let afterFrac := match fracPart with | none => r1 | some (_, r) => r
      let expPart : Option (Bool × List Char × List Char) :=
        match afterFrac with
        | 'e' :: r2 =>
          match r2 with
          | '-' :: r3 =>
            (match takeDigits r3 with | ([], _) => none | (ds, r4) => some (true, ds, r4))
          | '+' :: r3 =>
            (match takeDigits r3 with | ([], _) => none | (ds, r4) => some (false, ds, r4))
          | _ =>
            (match takeDigits r2 with | ([], _) => none | (ds, r4) => some (false, ds, r4))
        | 'E' :: r2 =>
          match r2 with
          | '-' :: r3 =>
            (match takeDigits r3 with | ([], _) => none | (ds, r4) => some (true, ds, r4))
          | '+' :: r3 =>
            (match takeDigits r3 with | ([], _) => none | (ds, r4) => some (false, ds, r4))
          | _ =>
            (match takeDigits r2 with | ([], _) => none | (ds, r4) => some (false, ds, r4))
        | _ => none
      match fracPart, expPart with
      | none, none =>
        let v : Int := Int.ofNat (digitsToNat ids)
        .ok (.num (if neg then -v else v), r1)
      | _, _ =>
        let fds := match fracPart with | none => [] | some (ds, _) => ds
        let rest := match expPart with | none => afterFrac | some (_, _, r) => r
        let e : Int := match expPart with
          | none => 0
          | some (en, ds, _) =>
            if en then -(Int.ofNat (digitsToNat ds)) else Int.ofNat (digitsToNat ds)
        .ok (.jfloat neg (digitsToNat (ids ++ fds)) (e - Int.ofNat fds.length), rest)
  match s with
  | '-' :: t => core t true
  | _ => core s false

/-- Insert a key into a Python dict in insertion order: an existing key
keeps its position and takes the new value, a new key is appended. -/
def objInsert : List (String × JVal) → String → JVal → List (String × JVal)
  | [], k, v => [(k, v)]
  | (k0, v0) :: rest, k, v =>
    if k0 = k then (k0, v) :: rest else (k0, v0) :: objInsert rest k v

mutual

/-- One JSON value at the current (already whitespace-skipped) position. -/
def parseValue : Nat → List Char → Except Err (JVal × List Char)
  | 0, _ => .error .jsonDecodeError
  | fuel + 1, s =>
    match s with
    | '\"' :: rest =>
      match parseJString (rest.length + 1) rest [] with
      | .ok (str, r) => .ok (.str str, r)
      | .error e => .error e
    | '\x7b' :: rest =>
      match skipWsJ rest with
      | '\x7d' :: r2 => .ok (.obj [], r2)
      | r2 => parseMembers fuel r2 []
    | '[' :: rest =>
      match skipWsJ rest with
      | ']' :: r2 => .ok (.arr [], r2)
      | r2 => parseElems fuel r2 []
    | 't' :: 'r' :: 'u' :: 'e' :: rest => .ok (.bool true, rest)
    | 'f' :: 'a' :: 'l' :: 's' :: 'e' :: rest => .ok (.bool false, rest)
    | 'n' :: 'u' :: 'l' :: 'l' :: rest => .ok (.null, rest)
    | 'N' :: 'a' :: 'N' :: rest => .ok (.nan, rest)
    | 'I' :: 'n' :: 'f' :: 'i' :: 'n' :: 'i' :: 't' :: 'y' :: rest =>
      .ok (.inf false, rest)
    | '-' :: 'I' :: 'n' :: 'f' :: 'i' :: 'n' :: 'i' :: 't' :: 'y' :: rest =>
      .ok (.inf true, rest)
    | t => parseNumber t

/-- The members of an object after the opening brace (nonempty case),
positioned at a key. -/
def parseMembers : Nat → List Char → List (String × JVal) →
    Except Err (JVal × List Char)
  | 0, _, _ => .error .jsonDecodeError
  | fuel + 1, s, acc =>
    match s with
    | '\"' :: rest =>
      match parseJString (rest.length + 1) rest [] with
      | .error e => .error e
      | .ok (key, r1) =>
        match skipWsJ r1 with
        | ':' :: r2 =>
          match parseValue fuel (skipWsJ r2) with
          | .error e => .error e
          | .ok (v, r3) =>
            let acc2 := objInsert acc key v
            match skipWsJ r3 with
            | ',' :: r4 => parseMembers fuel (skipWsJ r4) acc2
            | '\x7d' :: r4 => .ok (.obj acc2, r4)
            | _ => .error .jsonDecodeError
        | _ => .error .jsonDecodeError
    | _ => .error .jsonDecodeError

/-- The elements of an array after the opening bracket (nonempty case),
positioned at a value. -/
def parseElems : Nat → List Char → List JVal → Except Err (JVal × List Char)
  | 0, _, _ => .error .jsonDecodeError
  | fuel + 1, s, acc =>
    match parseValue fuel s with
    | .error e => .error e
    | .ok (v, r1) =>
      match skipWsJ r1 with
      | ',' :: r2 => parseElems fuel (skipWsJ r2) (acc ++ [v])
      | ']' :: r2 => .ok (.arr (acc ++ [v]), r2)
      | _ => .error .jsonDecodeError

end

/-- json.loads: skip leading whitespace, read one value, require that only
whitespace remains. -/
def parseJsonText (s : List Char) : Except Err JVal :=
  let s1 := skipWsJ s
  match parseValue (s1.length + 1) s1 with
  | .error e => .error e
  | .ok (v, rest) =>
    match skipWsJ rest with
    | [] => .ok v
    | _ => .error .jsonDecodeError

/- ------------------------------------------------------------------ -/
/- extract_json (website.py lines 341-361)                            -/
/- ------------------------------------------------------------------ -/

/-- The ordered repair pass of extract_json: the four protective text
substitutions, then the unicode-escape decode of the re-encoded text,
then the doubling of every backslash not followed by a double quote.
The order is exactly that of the source lines 349-354. -/
def repairString (jsonStr : List Char) : Except Err (List Char) :=
  let r1 := pyReplace jsonStr ['\\', '\"'] ['\\', '\\', '\"']
  let r2 := pyReplace r1 ['\\', 's'] ['\\', '\\', 's']
  let r3 := pyReplace r2 ['\\', 'n'] ['\\', '\\', 'n']
  let r4 := pyReplace r3 ['\\', 't'] ['\\', '\\', 't']
  match unicodeEscapeBytes (utf8Encode r4) with
  | .error e => .error e
  | .ok dec => .ok (subDouble dec)

/-- Repair then parse one extracted block. -/
def repairParse (jsonStr : List Char) : Except Err JVal :=
  match repairString jsonStr with
  | .error e => .error e
  | .ok r => parseJsonText r

/-- extract_json content name: decode the page bytes as UTF-8, find the
first regex match of the named block, repair and parse it; any failure
anywhere is caught and re-raised as WebsiteParsingError naming the
block. -/
def extract_json (content : List Nat) (name : String) : Except Err JVal :=
  match utf8Decode content with
  | none => .error (.websiteParsingError ("Unable to extract " ++ name))
  | some text =>
    match findBlock name.data text with
    | none => .error (.websiteParsingError ("Unable to extract " ++ name))
    | some jsonStr =>
      match repairParse jsonStr with
      | .ok v => .ok v
      | .error _ => .error (.websiteParsingError ("Unable to extract " ++ name))

/-- Page text to bytes, for concrete inputs. -/
def strBytes (s : String) : List Nat := utf8Encode s.data

/-- Success test for an Except value. -/
def isOkE : Except Err α → Bool
  | .ok _ => true
  | .error _ => false

/- ------------------------------------------------------------------ -/
/- Python value operations                                             -/
/- ------------------------------------------------------------------ -/

/-- First-match lookup in a dict entry list. -/
def lookupStr : List (String × JVal) → String → Option JVal
  | [], _ => none
  | (k, v) :: rest, key => if k = key then some v else lookupStr rest key

/-- Key containment in a dict entry list. -/
def containsKeyS (es : List (String × JVal)) (k : String) : Bool :=
  (lookupStr es k).isSome

/-- Exact comparison of a syntactic float with an integer
(+-mant * 10^scale = n, decided exactly over the integers). -/
def floatEqInt (neg : Bool) (mant : Nat) (scale : Int) (n : Int) : Bool :=
  let s : Int := if neg then -(mant : Int) else (mant : Int)
  if 0 ≤ scale then s * 10 ^ scale.toNat == n else s == n * 10 ^ (-scale).toNat

/-- Exact comparison of two syntactic floats. -/
def floatEqFloat (n1 : Bool) (m1 : Nat) (s1 : Int)
    (n2 : Bool) (m2 : Nat) (s2 : Int) : Bool :=
  let a : Int := if n1 then -(m1 : Int) else (m1 : Int)
  let b : Int := if n2 then -(m2 : Int) else (m2 : Int)
  if s2 ≤ s1 then a * 10 ^ (s1 - s2).toNat == b else a == b * 10 ^ (s2 - s1).toNat

mutual

/-- Python equality on embedded values: numeric cross-type coercions
(bool with int and float), structural equality for sequences, key-based
order-insensitive equality for dicts, NaN unequal to everything.  The
fuel bounds the nesting depth and total sequence length, standing in for
the interpreter recursion limit; every value reached by the claims is
far below the bound. -/
def pyEqF : Nat → JVal → JVal → Bool
  | 0, _, _ => false
  | fuel + 1, a, b =>
    match a, b with
    | .null, .null => true
    | .bool x, .bool y => x == y
    | .bool x, .num n => (if x then (1 : Int) else 0) == n
    | .num n, .bool x => n == (if x then (1 : Int) else 0)
    | .num m, .num n => m == n
    | .num n, .jfloat ng m sc => floatEqInt ng m sc n
    | .jfloat ng m sc, .num n => floatEqInt ng m sc n
    | .jfloat a1 b1 c1, .jfloat a2 b2 c2 => floatEqFloat a1 b1 c1 a2 b2 c2
    | .bool x, .jfloat ng m sc => floatEqInt ng m sc (if x then 1 else 0)
    | .jfloat ng m sc, .bool x => floatEqInt ng m sc (if x then 1 else 0)
    | .inf x, .inf y => x == y
    | .str s, .str t => s == t
    | .arr xs, .arr ys => pyEqList fuel xs ys
    | .obj xs, .obj ys => xs.length == ys.length && pyEqObj fuel xs ys
    | _, _ => false

/-- Elementwise equality of two sequences. -/
def pyEqList : Nat → List JVal → List JVal → Bool
  | 0, _, _ => false
  | _ + 1, [], [] => true
  | fuel + 1, x :: xs, y :: ys => pyEqF fuel x y && pyEqList fuel xs ys
  | _ + 1, _, _ => false

/-- Every key of the first dict maps to an equal value in the second. -/
def pyEqObj : Nat → List (String × JVal) → List (String × JVal) → Bool
  | 0, _, _ => false
  | _ + 1, [], _ => true
  | fuel + 1, (k, v) :: rest, ys =>
    (match lookupStr ys k with
     | some w => pyEqF fuel v w
     | none => false) && pyEqObj fuel rest ys

end

/-- Python equality with a generous depth bound. -/
def pyEq (a b : JVal) : Bool := pyEqF 1000 a b

/-- Python truthiness. -/
def pyTruthy : JVal → Bool
  | .null => false
  | .bool b => b
  | .num n => n != 0
  | .jfloat _ m _ => m != 0
  | .nan => true
  | .inf _ => true
  | .str s => s.length != 0
  | .arr xs => xs.length != 0
  | .obj es => es.length != 0

/-- Python len: defined on strings, sequences and dicts, a TypeError on
everything else. -/
def pyLen : JVal → Except Err Nat
  | .str s => .ok s.length
  | .arr xs => .ok xs.length
  | .obj es => .ok es.length
  | _ => .error .typeError

/-- dict.get with a default. -/
def pyDictGet (es : List (String × JVal)) (k : String) (dflt : JVal) : JVal :=
  (lookupStr es k).getD dflt

/-- Python subscript access container[key]: dict lookup by string key
(KeyError when absent, and a non-string hashable key is simply absent
from the string-keyed dicts of this module), sequence and string
indexing with negative indices (IndexError out of range), TypeError on
everything else. -/
def pyGetItem (container : JVal) (key : JVal) : Except Err JVal :=
  match container, key with
  | .obj es, .str k =>
    match lookupStr es k with
    | some v => .ok v
    | none => .error (.keyError k)
  | .obj _, .arr _ => .error .typeError
  | .obj _, .obj _ => .error .typeError
  | .obj _, _ => .error (.keyError "")
  | .arr xs, .num n =>
    let i : Int := if n < 0 then n + xs.length else n
    if i < 0 then .error .indexError
    else
      match xs.get? i.toNat with
      | some v => .ok v
      | none => .error .indexError
  | .arr xs, .bool b =>
    match xs.get? (if b then 1 else 0) with
    | some v => .ok v
    | none => .error .indexError
  | .arr _, _ => .error .typeError
  | .str s, .num n =>
    let i : Int := if n < 0 then n + s.length else n
    if i < 0 then .error .indexError
    else
      match s.data.get? i.toNat with
      | some c => .ok (.str (String.mk [c]))
      | none => .error .indexError
  | .str _, _ => .error .typeError
  | _, _ => .error .typeError

/-- Substring test (needle occurs contiguously in haystack). -/
def isSubstr (pat : List Char) : List Char → Bool
  | [] => matchesAt pat []
  | c :: rest => matchesAt pat (c :: rest) || isSubstr pat rest

/-- The Python in operator: key containment for dicts, elementwise
equality for sequences, substring for strings, TypeError otherwise. -/
def pyIn (needle : JVal) (container : JVal) : Except Err Bool :=
  match container with
  | .obj es =>
    match needle with
    | .str k => .ok (containsKeyS es k)
    | .arr _ => .error .typeError
    | .obj _ => .error .typeError
    | _ => .ok false
  | .arr xs => .ok (xs.any (fun y => pyEq needle y))
  | .str s =>
    match needle with
    | .str t => .ok (isSubstr t.data s.data)
    | _ => .error .typeError
  | _ => .error .typeError

/-- Truncation toward zero of a syntactic float. -/
def truncFloat (neg : Bool) (mant : Nat) (scale : Int) : Int :=
  let v : Nat :=
    if 0 ≤ scale then mant * 10 ^ scale.toNat else mant / 10 ^ (-scale).toNat
  if neg then -(v : Int) else (v : Int)

/-- Integer literal parse for int(str): optional surrounding ASCII
whitespace, an optional sign, one or more digits (the underscore digit
grouping of newer interpreters is not modelled). -/
def strToInt (s : List Char) : Except Err Int :=
  let t := dropSpaces s
  let core : List Char → Bool → Except Err Int := fun u neg =>
    match takeDigits u with
    | ([], _) => .error .valueError
    | (ds, rest) =>
      if dropSpaces rest = [] then
        .ok (if neg then -(Int.ofNat (digitsToNat ds)) else Int.ofNat (digitsToNat ds))
      else .error .valueError
  match t with
  | '-' :: u => core u true
  | '+' :: u => core u false
  | u => core u false

/-- The int(...) constructor on embedded values. -/
def pyInt : JVal → Except Err Int
  | .num n => .ok n
  | .bool b => .ok (if b then 1 else 0)
  | .jfloat neg m sc => .ok (truncFloat neg m sc)
  | .nan => .error .valueError
  | .inf _ => .error .valueError
  | .str s => strToInt s.data
  | _ => .error .typeError

/-- Split a string at every occurrence of a separator character
(str.split semantics with a one-character separator). -/
def splitCharAux (sep : Char) : List Char → List Char → List String
  | [], cur => [String.mk cur.reverse]
  | c :: rest, cur =>
    if c = sep then String.mk cur.reverse :: splitCharAux sep rest []
    else splitCharAux sep rest (c :: cur)

/-- str.split(sep) for a one-character separator. -/
def splitChar (sep : Char) (s : String) : List String :=
  splitCharAux sep s.data []

/- ------------------------------------------------------------------ -/
/- Path navigator                                                     -/
/- ------------------------------------------------------------------ -/

/-- Modelled from the spec: common.get_path walks a sequence of string
segments down through nested mappings, failing with the key-not-found
kind (keyError) when a segment is absent and with the type-mismatch kind
(typeError) when the current node is not a mapping.  The function itself
lives outside this module (resources/lib/common). -/
def get_path : List String → JVal → Except Err JVal
  | [], v => .ok v
  | k :: rest, .obj es =>
    match lookupStr es k with
    | some v => get_path rest v
    | none => .error (.keyError k)
  | _ :: _, _ => .error .typeError

/-- Modelled from the spec: common.check_path_exists runs the same
traversal and returns a boolean instead of propagating the failure. -/
def check_path_exists (path : List String) (tree : JVal) : Bool :=
  isOkE (get_path path tree)

/- ------------------------------------------------------------------ -/
/- HTML helpers                                                        -/
/- ------------------------------------------------------------------ -/

/-- Scan past the first closing angle bracket. -/
def dropToGt : List Char → Option (List Char)
  | [] => none
  | '>' :: rest => some rest
  | _ :: rest => dropToGt rest

/-- Modelled from the spec: common.remove_html_tags (outside this module)
strips HTML tags; every maximal span from an opening angle bracket to
the next closing one is removed, an unmatched opening bracket is kept. -/
def stripTagsFuel : Nat → List Char → List Char
  | 0, s => s
  | _ + 1, [] => []
  | fuel + 1, c :: rest =>
    if c = '<' then
      match dropToGt rest with
      | some rest2 => stripTagsFuel fuel rest2
      | none => c :: rest
    else c :: stripTagsFuel fuel rest

/-- Tag stripping on strings. -/
def stripHtmlTags (s : String) : String :=
  String.mk (stripTagsFuel s.data.length s.data)

/-- Scan an entity name up to the semicolon. -/
def splitEntity : List Char → List Char → Option (List Char × List Char)
  | [], _ => none
  | ';' :: rest, acc => some (acc.reverse, rest)
  | c :: rest, acc =>
    if c = '&' || c = ' ' then none else splitEntity rest (c :: acc)

/-- Decode one entity name (the named subset used by profile names plus
numeric character references). -/
def decodeEntity (nm : List Char) : Option Char :=
  match nm with
  | ['a', 'm', 'p'] => some '&'
  | ['l', 't'] => some '<'
  | ['g', 't'] => some '>'
  | ['q', 'u', 'o', 't'] => some '\"'
  | ['a', 'p', 'o', 's'] => some '\''
  | '#' :: 'x' :: ds =>
    match readHexC ds.length ds with
    | some (v, []) => if v ≤ 0x10FFFF then some (Char.ofNat v) else none
    | _ => none
  | '#' :: ds =>
    match takeDigits ds with
    | (dds, []) => if dds ≠ [] then some (Char.ofNat (digitsToNat dds)) else none
    | _ => none
  | _ => none

/-- HTML entity decoding pass. -/
def htmlUnFuel : Nat → List Char → List Char
  | 0, s => s
  | _ + 1, [] => []
  | fuel + 1, c :: rest =>
    if c = '&' then
      match splitEntity rest [] with
      | some (nm, after) =>
        match decodeEntity nm with
        | some ch => ch :: htmlUnFuel fuel after
        | none => '&' :: htmlUnFuel fuel rest
      | none => '&' :: htmlUnFuel fuel rest
    else c :: htmlUnFuel fuel rest

/-- parse_html (website.py lines 396-402) defers to the standard-library
HTML entity decoder; that decoder is outside this repository, so its
behaviour is modelled as the named subset above plus numeric
references. -/
def parse_html (s : String) : String :=
  String.mk (htmlUnFuel s.data.length s.data)

/-- parse_html applied to an embedded value: decoding a non-string
raises AttributeError (no unescape on the value). -/
def parseHtmlV : JVal → Except Err JVal
  | .str s => .ok (.str (parse_html s))
  | _ => .error .attributeError

/- ------------------------------------------------------------------ -/
/- Declarative path tables (website.py lines 33-67)                    -/
/- ------------------------------------------------------------------ -/

def PAGE_ITEMS_INFO : List String :=
  ["models/userInfo/data/name",
   "models/userInfo/data/guid",
   "models/userInfo/data/userGuid",
   "models/userInfo/data/countryOfSignup",
   "models/userInfo/data/membershipStatus",
   "models/userInfo/data/isTestAccount",
   "models/userInfo/data/deviceTypeId",
   "models/userInfo/data/isAdultVerified",
   "models/userInfo/data/isKids",
   "models/userInfo/data/pinEnabled",
   "models/serverDefs/data/BUILD_IDENTIFIER",
   "models/esnGeneratorModel/data/esn",
   "models/memberContext/data/geo/preferredLocale"]

def PAGE_ITEMS_API_URL : List (String × String) :=
  [("auth_url", "models/userInfo/data/authURL"),
   ("api_endpoint_root_url", "models/serverDefs/data/API_ROOT"),
   ("api_endpoint_url", "models/playerModel/data/config/ui/initParams/apiUrl"),
   ("request_id", "models/serverDefs/data/requestId"),
   ("asset_core", "models/playerModel/data/config/core/assets/core"),
   ("ui_version", "models/playerModel/data/config/ui/initParams/uiVersion"),
   ("browser_info_version", "models/browserInfo/data/version"),
   ("browser_info_os_name", "models/browserInfo/data/os/name"),
   ("browser_info_os_version", "models/browserInfo/data/os/version")]

def PAGE_ITEM_ERROR_CODE : String := "models/flow/data/fields/errorCode/value"

def PAGE_ITEM_ERROR_CODE_LIST : String := "models\\i18nStrings\\data\\login/login"

def AVATAR_SUBPATH : List String := ["images", "byWidth", "320"]

/- ------------------------------------------------------------------ -/
/- extract_userdata / extract_api_data (website.py lines 272-309)     -/
/- ------------------------------------------------------------------ -/

/-- The extraction loop of extract_userdata: for each declared slash
path, store the navigated value under the final segment; a missing path
(the key-not-found kind caught by the source except clause) is logged
and skipped, any other failure propagates. -/
def collectUserdata : List String → JVal → List (String × JVal) →
    Except Err (List (String × JVal))
  | [], _, acc => .ok acc
  | p :: rest, ctx, acc =>
    let segs := splitChar '/' p
    match get_path segs ctx with
    | .ok v => collectUserdata rest ctx (objInsert acc (segs.getLastD "") v)
    | .error (.keyError _) => collectUserdata rest ctx acc
    | .error .attributeError => collectUserdata rest ctx acc
    | .error e => .error e

/-- extract_userdata (lines 272-286). -/
def extract_userdata (react_context : JVal) : Except Err (List (String × JVal)) :=
  collectUserdata PAGE_ITEMS_INFO react_context []

/-- The extraction loop of extract_api_data over the api-url table. -/
def collectApiData : List (String × String) → JVal → List (String × JVal) →
    Except Err (List (String × JVal))
  | [], _, acc => .ok acc
  | (key, p) :: rest, ctx, acc =>
    match get_path (splitChar '/' p) ctx with
    | .ok v => collectApiData rest ctx (objInsert acc key v)
    | .error (.keyError _) => collectApiData rest ctx acc
    | .error .attributeError => collectApiData rest ctx acc
    | .error e => .error e

/-- assert_valid_auth_url (lines 305-309): the auth_url entry (an empty
string when absent) must have len exactly 42, otherwise
InvalidAuthURLError; the input mapping is returned unchanged. -/
def assert_valid_auth_url (user_data : List (String × JVal)) :
    Except Err (List (String × JVal)) :=
  match pyLen (pyDictGet user_data "auth_url" (.str "")) with
  | .error e => .error e
  | .ok n =>
    if n = 42 then .ok user_data
    else .error (.invalidAuthURLError "authURL is invalid")

/-- extract_api_data (lines 289-302): collect the api-url table and
apply the auth-url validation to the result before returning. -/
def extract_api_data (react_context : JVal) : Except Err (List (String × JVal)) :=
  match collectApiData PAGE_ITEMS_API_URL react_context [] with
  | .ok api_data => assert_valid_auth_url api_data
  | .error e => .error e

/- ------------------------------------------------------------------ -/
/- validate_login (website.py lines 312-338)                           -/
/- ------------------------------------------------------------------ -/

/-- The static handler message of validate_login (two adjacent source
literals joined). -/
def VL_STATIC_MSG : String :=
  "Something is wrong in PAGE_ITEM_ERROR_CODE or PAGE_ITEM_ERROR_CODE_LIST paths." ++
  "react_context data may have changed."

/-- The try body of validate_login: fetch the translation table and the
error code, resolve the description through the plain, email-prefixed
and login-prefixed lookups in that order (later hits override), then
raise the incorrect-password kind when the code contains that substring
and the generic kind otherwise, with tags stripped from the message.
The loc argument stands for the external localized-string table
(common.get_local_string). -/
def vlBody (loc : Nat → String) (react : JVal)
    (codeListPath codePath : List String) : Except Err Unit :=
  match get_path codeListPath react with
  | .error e => .error e
  | .ok error_code_list =>
  match get_path codePath react with
  | .error e => .error e
  | .ok ec =>
  match ec with
  | .str code =>
    match pyIn (.str code) error_code_list with
    | .error e => .error e
    | .ok b0 =>
    match (if b0 then pyGetItem error_code_list (.str code)
           else .ok (.str (loc 30102 ++ code))) with
    | .error e => .error e
    | .ok d1 =>
    match pyIn (.str ("email_" ++ code)) error_code_list with
    | .error e => .error e
    | .ok b1 =>
    match (if b1 then pyGetItem error_code_list (.str ("email_" ++ code))
           else .ok d1) with
    | .error e => .error e
    | .ok d2 =>
    match pyIn (.str ("login_" ++ code)) error_code_list with
    | .error e => .error e
    | .ok b2 =>
    match (if b2 then pyGetItem error_code_list (.str ("login_" ++ code))
           else .ok d2) with
    | .error e => .error e
    | .ok d3 =>
    match d3 with
    | .str msg =>
      if isSubstr "incorrect_password".data code.data then
        .error (.loginValidateErrorIncorrectPassword (stripHtmlTags msg))
      else
        .error (.loginValidateError (stripHtmlTags msg))
    | _ => .error .typeError
  | _ => .error .typeError

/-- validate_login (lines 312-338): a no-op when the error-code path is
absent; otherwise the body runs, with the key-not-found and attribute
failure kinds of the navigation converted to the generic login error
carrying the static message. -/
def validate_login (loc : Nat → String) (react : JVal) : Except Err Unit :=
  if check_path_exists (splitChar '/' PAGE_ITEM_ERROR_CODE) react then
    match vlBody loc react (splitChar '\\' PAGE_ITEM_ERROR_CODE_LIST)
        (splitChar '/' PAGE_ITEM_ERROR_CODE) with
    | .error (.keyError _) => .error (.loginValidateError VL_STATIC_MSG)
    | .error .attributeError => .error (.loginValidateError VL_STATIC_MSG)
    | r => r
  else .ok ()

/- ------------------------------------------------------------------ -/
/- Graph-reference navigation                                          -/
/- ------------------------------------------------------------------ -/

/-- All reference ids as strings (the falcor paths of this module are
string-keyed). -/
def idsAsStrings : List JVal → Option (List String)
  | [] => some []
  | .str s :: rest => (idsAsStrings rest).map (fun t => s :: t)
  | _ :: _ => none

/-- Recognize a graph reference cell (a dict tagged ref whose value is
the id path). -/
def refTarget (v : JVal) : Option (List String) :=
  match v with
  | .obj es =>
    match lookupStr es "$type", lookupStr es "value" with
    | some (.str "ref"), some (.arr ids) => idsAsStrings ids
    | _, _ => none
  | _ => none

/-- Dereference a cell against the cache root, repeatedly until a
non-reference is reached; the fuel stands for the interpreter recursion
limit (a cyclic reference chain ends in RecursionError). -/
def resolveRef : Nat → JVal → JVal → Except Err JVal
  | 0, _, _ => .error .recursionError
  | fuel + 1, root, v =>
    match refTarget v with
    | none => .ok v
    | some ids =>
      match get_path ids root with
      | .ok w => resolveRef fuel root w
      | .error e => .error e

/-- Modelled from the spec: jgraph_get (resources/lib/api/paths.py, which
is outside src) reads node[key]; when the result is a reference cell and
a cache root is supplied it is resolved recursively against the root;
failures are those of plain traversal. -/
def jgraph_get (key : String) (node : JVal) (cacheRoot : Option JVal) :
    Except Err JVal :=
  match node with
  | .obj es =>
    match lookupStr es key with
    | some v =>
      match cacheRoot with
      | some root => resolveRef 1000 root v
      | none => .ok v
    | none => .error (.keyError key)
  | _ => .error .typeError

/-- Resolve every entry of an index-keyed reference dict. -/
def resolveEntryList (root : JVal) : List (String × JVal) →
    Except Err (List (String × JVal))
  | [] => .ok []
  | (k, v) :: rest =>
    match resolveRef 1000 root v with
    | .error e => .error e
    | .ok w =>
      match resolveEntryList root rest with
      | .error e => .error e
      | .ok tail => .ok ((k, w) :: tail)

/-- Modelled from the spec: jgraph_get_list reads node[key], expects an
index-keyed collection of references into the same root and resolves
each one, preserving the original ordering. -/
def jgraph_get_list (key : String) (root : JVal) :
    Except Err (List (String × JVal)) :=
  match root with
  | .obj es =>
    match lookupStr es key with
    | none => .error (.keyError key)
    | some (.obj entries) => resolveEntryList root entries
    | some _ => .error .typeError
  | _ => .error .typeError

/-- Modelled from the spec: jgraph_get_path applies jgraph_get segment by
segment. -/
def jgraph_get_path (segs : List String) (node : JVal) : Except Err JVal :=
  match segs with
  | [] => .ok node
  | k :: rest =>
    match jgraph_get k node none with
    | .ok v => jgraph_get_path rest v
    | .error e => .error e

/- ------------------------------------------------------------------ -/
/- The external stores (session values, profiles, settings)           -/
/- ------------------------------------------------------------------ -/

/-- Association lookup (first match). -/
def alookup {κ : Type} [DecidableEq κ] {β : Type} : List (κ × β) → κ → Option β
  | [], _ => none
  | (k, v) :: rest, key => if k = key then some v else alookup rest key

/-- Association upsert: an existing key keeps its position and takes the
new value, a new key is appended. -/
def aupsert {κ : Type} [DecidableEq κ] {β : Type} :
    List (κ × β) → κ → β → List (κ × β)
  | [], k, v => [(k, v)]
  | (k0, v0) :: rest, k, v =>
    if k0 = k then (k0, v) :: rest else (k0, v0) :: aupsert rest k v

/-- The local database: keyed values (table, key), the profile table
(guid maps to the raw isActive value and the sort order), per-profile
configuration entries, and the owner guid served by
get_guid_owner_profile. -/
structure LocalDB where
  values : List ((String × String) × JVal)
  profiles : List (String × (JVal × Nat))
  profileConfigs : List ((String × String) × JVal)
  ownerGuid : String

/-- The shared database profile table (guid maps to sort order). -/
structure SharedDB where
  profiles : List (String × Nat)

/-- Addon settings (string and boolean). -/
structure AddonCfg where
  settings : List (String × String)
  boolSettings : List (String × Bool)

/-- The external mutable world touched by the orchestrators. -/
structure World where
  ldb : LocalDB
  sdb : SharedDB
  addon : AddonCfg
  monitorSuspended : Bool

def wSetValue (w : World) (tk : String × String) (v : JVal) : World :=
  World.mk
    (LocalDB.mk (aupsert w.ldb.values tk v) w.ldb.profiles
      w.ldb.profileConfigs w.ldb.ownerGuid)
    w.sdb w.addon w.monitorSuspended

def wGetValue (w : World) (tk : String × String) (dflt : JVal) : JVal :=
  (alookup w.ldb.values tk).getD dflt

def wSetProfileLocal (w : World) (g : String) (a : JVal) (s : Nat) : World :=
  World.mk
    (LocalDB.mk w.ldb.values (aupsert w.ldb.profiles g (a, s))
      w.ldb.profileConfigs w.ldb.ownerGuid)
    w.sdb w.addon w.monitorSuspended

def wSetProfileShared (w : World) (g : String) (s : Nat) : World :=
  World.mk w.ldb (SharedDB.mk (aupsert w.sdb.profiles g s)) w.addon
    w.monitorSuspended

def wSetProfileConfig (w : World) (g k : String) (v : JVal) : World :=
  World.mk
    (LocalDB.mk w.ldb.values w.ldb.profiles
      (aupsert w.ldb.profileConfigs (g, k) v) w.ldb.ownerGuid)
    w.sdb w.addon w.monitorSuspended

/-- delete_profile on both stores (the source always deletes the same
guid from the local and the shared database together). -/
def wDeleteProfile (w : World) (g : String) : World :=
  World.mk
    (LocalDB.mk w.ldb.values (w.ldb.profiles.filter (fun p => p.1 ≠ g))
      w.ldb.profileConfigs w.ldb.ownerGuid)
    (SharedDB.mk (w.sdb.profiles.filter (fun p => p.1 ≠ g)))
    w.addon w.monitorSuspended

def wSetSetting (w : World) (k v : String) : World :=
  World.mk w.ldb w.sdb
    (AddonCfg.mk (aupsert w.addon.settings k v) w.addon.boolSettings)
    w.monitorSuspended

def wSetSettingBool (w : World) (k : String) (v : Bool) : World :=
  World.mk w.ldb w.sdb
    (AddonCfg.mk w.addon.settings (aupsert w.addon.boolSettings k v))
    w.monitorSuspended

def wSuspend (w : World) (b : Bool) : World :=
  World.mk w.ldb w.sdb w.addon b

/-- get_active_profile_guid: the first profile whose stored isActive
value is truthy (ProfilesMissing when there is none). -/
def findActive : List (String × (JVal × Nat)) → Option String
  | [] => none
  | (g, av) :: rest => if pyTruthy av.1 then some g else findActive rest

/-- switch_active_profile: mark exactly the given guid active. -/
def wSwitchActive (w : World) (g : String) : World :=
  World.mk
    (LocalDB.mk w.ldb.values
      (w.ldb.profiles.map (fun p => (p.1, (JVal.bool (p.1 = g), p.2.2))))
      w.ldb.profileConfigs w.ldb.ownerGuid)
    w.sdb w.addon w.monitorSuspended

/-- A stateful computation outcome: the result or the escaping exception,
together with the final world (side effects performed before an
exception persist, as in the interpreter). -/
inductive MRes (α : Type) where
  | ok (a : α) (w : World)
  | err (e : Err) (w : World)

def resWorld : MRes α → World
  | .ok _ w => w
  | .err _ w => w

def resIsOk : MRes α → Bool
  | .ok _ _ => true
  | .err _ _ => false

def TABLE_SESSION : String := "session"

/-- The default table of set_value/get_value calls made without an
explicit table argument. -/
def TABLE_APP : String := "app"

/-- Modelled from the spec: the default icon constant used as the avatar
fallback. -/
def ICON : JVal := .str "addon_icon"

/- ------------------------------------------------------------------ -/
/- parse_profiles (website.py lines 194-269)                           -/
/- ------------------------------------------------------------------ -/

/-- _get_avatar (lines 262-269): resolve the avatar reference and walk
the image-width sub-path; a key-not-found or type-mismatch failure falls
back to the default icon. -/
def get_avatar (profile_data data : JVal) : Except Err JVal :=
  match (match jgraph_get "avatar" profile_data (some data) with
         | .ok av => jgraph_get_path AVATAR_SUBPATH av
         | .error e => .error e) with
  | .ok v => .ok v
  | .error (.keyError _) => .ok ICON
  | .error .typeError => .ok ICON
  | .error e => .error e

/-- Remove the first occurrence of a key. -/
def removeKey : List (String × JVal) → String → List (String × JVal)
  | [], _ => []
  | (k0, v0) :: rest, k => if k0 = k then rest else (k0, v0) :: removeKey rest k

/-- dict.pop(key): the value and the remaining entries (KeyError when
absent, AttributeError when the receiver is not a dict). -/
def pyDictPop (v : JVal) (k : String) :
    Except Err (JVal × List (String × JVal)) :=
  match v with
  | .obj es =>
    match lookupStr es k with
    | some x => .ok (x, removeKey es k)
    | none => .error (.keyError k)
  | _ => .error .attributeError

/-- The per-profile configuration write loop (lines 214-219): every
summary entry is stored, the profile name being entity-decoded first. -/
def configLoop (guid : String) : List (String × JVal) → World → MRes Unit
  | [], w => .ok () w
  | (k, v) :: rest, w =>
    match (if k = "profileName" then parseHtmlV v else .ok v) with
    | .error e => .err e w
    | .ok v2 => configLoop guid rest (wSetProfileConfig w guid k v2)

/-- The profile iteration of parse_profiles (lines 203-221): resolve the
summary, read the guid (the stores of this model are string-keyed, so a
non-string guid is modelled as a type failure), resolve the avatar, pop
the isActive flag, write the profile row to both stores with the running
sort order, append the translated language description, write all
summary entries and the avatar as configuration, and accumulate the
guid.  The conv argument stands for the external language-code
translation service. -/
def profileLoop (conv : String → String) (data : JVal) :
    List (String × JVal) → Nat → List String → World → MRes (List String)
  | [], _, gs, w => .ok gs w
  | (_, pd) :: rest, sortOrder, gs, w =>
    match jgraph_get "summary" pd none with
    | .error e => .err e w
    | .ok summary =>
    match pyGetItem summary (.str "guid") with
    | .error e => .err e w
    | .ok gv =>
    match gv with
    | .str guid =>
      match get_avatar pd data with
      | .error e => .err e w
      | .ok avatarUrl =>
      match pyDictPop summary "isActive" with
      | .error e => .err e w
      | .ok (isActive, summary2) =>
      let w1 := wSetProfileShared (wSetProfileLocal w guid isActive sortOrder)
                  guid sortOrder
      match lookupStr summary2 "language" with
      | none => .err (.keyError "language") w1
      | some lv =>
      match lv with
      | .str lang =>
        let summary3 := objInsert summary2 "language_desc"
          (.str (conv (String.mk (lang.data.take 2))))
        match configLoop guid summary3 w1 with
        | .err e w2 => .err e w2
        | .ok _ w2 =>
          profileLoop conv data rest (sortOrder + 1) (gs ++ [guid])
            (wSetProfileConfig w2 guid "avatar" avatarUrl)
      | _ => .err .typeError w1
    | _ => .err .typeError w

/-- Membership of a stored value in the current guid list under Python
equality. -/
def inCurrentGuids (v : JVal) (gs : List String) : Bool :=
  gs.any (fun g => pyEq v (.str g))

/-- The deletion fold of _delete_non_existing_profiles: every known guid
absent from the current list is deleted from both stores. -/
def deleteFold (current : List String) : List String → World → World
  | [], w => w
  | g :: rest, w =>
    if current.contains g then deleteFold current rest w
    else deleteFold current rest (wDeleteProfile w g)

/-- _delete_non_existing_profiles (lines 230-259): garbage-collect stale
guids from both stores, restore an active profile falling back to the
owner, and clear the auto-select and library-playback settings when they
reference a vanished guid, inside a settings-monitor suspension. -/
def delete_non_existing_profiles (current : List String) (w : World) :
    MRes Unit :=
  let lg := w.ldb.profiles.map (fun p => p.1)
  let w1 := deleteFold current lg w
  let w2 :=
    match findActive w1.ldb.profiles with
    | some _ => w1
    | none => wSwitchActive w1 w1.ldb.ownerGuid
  let w3 := wSuspend w2 true
  let autosel := wGetValue w3 (TABLE_APP, "autoselect_profile_guid") (.str "")
  let w4 :=
    if pyTruthy autosel && !inCurrentGuids autosel current then
      wSetSettingBool
        (wSetSetting
          (wSetValue w3 (TABLE_APP, "autoselect_profile_guid") (.str ""))
          "autoselect_profile_name" "")
        "autoselect_profile_enabled" false
    else w3
  let libpb := wGetValue w4 (TABLE_APP, "library_playback_profile_guid") .null
  let w5 :=
    if pyTruthy libpb && !inCurrentGuids libpb current then
      wSetSetting
        (wSetValue w4 (TABLE_APP, "library_playback_profile_guid") (.str ""))
        "library_playback_profile" ""
    else w4
  .ok () (wSuspend w5 false)

/-- The try body of parse_profiles (lines 198-222): the empty-list
failure, the profile iteration, then the stale-profile deletion. -/
def parseProfilesBody (conv : String → String) (data : JVal)
    (profiles_list : List (String × JVal)) (w : World) : MRes Unit :=
  if profiles_list.isEmpty then
    .err (.invalidProfilesError
      (some "It has not been possible to obtain the list of profiles.")) w
  else
    match profileLoop conv data profiles_list 0 [] w with
    | .err e w1 => .err e w1
    | .ok gs w1 => delete_non_existing_profiles gs w1

/-- parse_profiles (lines 194-227): the profile list is resolved outside
the try block (a navigation failure there propagates raw); any exception
inside the body is logged and re-raised as a bare InvalidProfilesError,
with the state changes performed so far kept. -/
def parse_profiles (conv : String → String) (data : JVal) (w : World) :
    MRes Unit :=
  match jgraph_get_list "profilesList" data with
  | .error e => .err e w
  | .ok profiles_list =>
    match parseProfilesBody conv data profiles_list w with
    | .ok a w1 => .ok a w1
    | .err _ w1 => .err (.invalidProfilesError none) w1

/- ------------------------------------------------------------------ -/
/- extract_session_data (website.py lines 91-191)                      -/
/- ------------------------------------------------------------------ -/

/-- The closing writes of extract_session_data (lines 181-191): the build
identifier, the esn (written only when the stored one is falsy, from the
generated esn or the mandatory user-data entry), the locale id, every
api-data entry, and the returned mapping extended with the session
activity flag.  genEsn stands for common.generate_android_esn(). -/
def sessionFinal (genEsn : JVal) (u api_data : List (String × JVal))
    (isActive : Bool) (w : World) : MRes (List (String × JVal)) :=
  let w1 := wSetValue w (TABLE_SESSION, "build_identifier")
              (pyDictGet u "BUILD_IDENTIFIER" .null)
  match ((if pyTruthy (wGetValue w1 (TABLE_SESSION, "esn") .null) then .ok w1
          else if pyTruthy genEsn then
            .ok (wSetValue w1 (TABLE_SESSION, "esn") genEsn)
          else
            match lookupStr u "esn" with
            | some e => .ok (wSetValue w1 (TABLE_SESSION, "esn") e)
            | none => .error (.keyError "esn")) : Except Err World) with
  | .error e => .err e w1
  | .ok w2 =>
    match pyDictGet u "preferredLocale" .null with
    | .obj es2 =>
      let w3 := wSetValue w2 (TABLE_APP, "locale_id")
                  (pyDictGet es2 "id" (.str "en-US"))
      let w4 := api_data.foldl
                  (fun wa kv => wSetValue wa (TABLE_SESSION, kv.1) kv.2) w3
      .ok (objInsert api_data "is_profile_session_active" (.bool isActive)) w4
    | _ => .err .attributeError w2

/-- The loco extraction of extract_session_data (lines 139-154): the loco
root id from the falcor cache, the session-activity test, and the
request id of the component summary. -/
def sessionLoco (genEsn : JVal) (u api_data : List (String × JVal))
    (falcor : JVal) (w : World) : MRes (List (String × JVal)) :=
  match ((match pyGetItem falcor (.str "loco") with
          | .ok c =>
            match pyGetItem c (.str "value") with
            | .ok va => pyGetItem va (.num 1)
            | .error e => .error e
          | .error e => .error e) : Except Err JVal) with
  | .error e => .err e w
  | .ok loco_root =>
  let w1 := wSetValue w (TABLE_SESSION, "loco_root_id") loco_root
  match ((match pyGetItem falcor (.str "locos") with
          | .ok ls => pyGetItem ls loco_root
          | .error e => .error e) : Except Err JVal) with
  | .error e => .err e w1
  | .ok locoObj =>
  match pyIn (.str "componentSummary") locoObj with
  | .error e => .err e w1
  | .ok isActive =>
    if isActive then
      match ((match pyGetItem locoObj (.str "componentSummary") with
              | .ok cs =>
                match pyGetItem cs (.str "value") with
                | .ok csv => pyGetItem csv (.str "requestId")
                | .error e => .error e
              | .error e => .error e) : Except Err JVal) with
      | .error e => .err e w1
      | .ok rid =>
        sessionFinal genEsn u api_data true
          (wSetValue w1 (TABLE_SESSION, "loco_root_requestid") rid)
    else
      sessionFinal genEsn u api_data false
        (wSetValue w1 (TABLE_SESSION, "loco_root_requestid") (.str ""))

/-- extract_session_data after the membership check (lines 116-191): api
data extraction with its auth-url validation, the falcor cache
extraction, the optional profile parsing, the verbose-mode gate-state
read (whose failure escapes raw: both the logging read and its handler
evaluate the same path), then the loco extraction and the closing
writes. -/
def sessionAfterChecks (conv : String → String) (genEsn : JVal)
    (content : List Nat) (update_profiles debugVerbose : Bool)
    (ctx : JVal) (u : List (String × JVal)) (w : World) :
    MRes (List (String × JVal)) :=
  match extract_api_data ctx with
  | .error e => .err e w
  | .ok api_data =>
  match extract_json content "falcorCache" with
  | .error e => .err e w
  | .ok falcor =>
  match (if update_profiles then parse_profiles conv falcor w else .ok () w) with
  | .err e w1 => .err e w1
  | .ok _ w1 =>
  match ((if debugVerbose then
            (match pyGetItem ctx (.str "models") with
             | .ok m =>
               match pyGetItem m (.str "profileGateState") with
               | .ok pg => pyGetItem pg (.str "data")
               | .error e => .error e
             | .error e => .error e)
          else .ok .null) : Except Err JVal) with
  | .error e => .err e w1
  | .ok _ => sessionLoco genEsn u api_data falcor w1

/-- extract_session_data (lines 91-191): extract the react context,
optionally validate the login, extract the user data, apply the two
membership-status checks, then run the rest of the pipeline.  loc and
conv stand for the external localization services, genEsn for the
generated esn. -/
def extract_session_data (loc : Nat → String) (conv : String → String)
    (genEsn : JVal) (content : List Nat)
    (validate update_profiles debugVerbose : Bool) (w : World) :
    MRes (List (String × JVal)) :=
  match extract_json content "reactContext" with
  | .error e => .err e w
  | .ok ctx =>
  match (if validate then validate_login loc ctx else .ok ()) with
  | .error e => .err e w
  | .ok _ =>
  match extract_userdata ctx with
  | .error e => .err e w
  | .ok u =>
    if pyEq (pyDictGet u "membershipStatus" .null) (.str "ANONYMOUS") then
      .err .invalidMembershipStatusAnonymous w
    else if !pyEq (pyDictGet u "membershipStatus" .null) (.str "CURRENT_MEMBER") then
      .err (.invalidMembershipStatusError (pyDictGet u "membershipStatus" .null)) w
    else
      sessionAfterChecks conv genEsn content update_profiles debugVerbose ctx u w

/- ------------------------------------------------------------------ -/
/- extract_parental_control_data (website.py lines 364-393)            -/
/- ------------------------------------------------------------------ -/

def PC_MAX_PATH : List String :=
  ["models", "parentalControls", "data", "accountProps", "countryMaxMaturity"]

def PC_LEVELS_PATH : List String :=
  ["models", "memberContext", "data", "userInfo", "ratingLevels"]

/-- Python iteration over a sized container: sequence items, dict keys,
the characters of a string; TypeError otherwise. -/
def pyIterItems : JVal → Except Err (List JVal)
  | .arr xs => .ok xs
  | .obj es => .ok (es.map (fun p => .str p.1))
  | .str s => .ok (s.data.map (fun c => .str (String.mk [c])))
  | _ => .error .typeError

/-- One iteration body of the rating-level loop (lines 378-386): the
effective value is the country maximum for the last index and the int of
the own descriptor otherwise; the built entry carries the running index,
the effective value, the first label and its entity-decoded
description.  Returns the effective value together with the entry. -/
def pcOneEntry (maxm : JVal) (total idx : Nat) (rl : JVal) :
    Except Err (JVal × JVal) :=
  match ((if idx = total - 1 then .ok maxm
          else
            match pyGetItem rl (.str "level") with
            | .ok lv =>
              match pyInt lv with
              | .ok n => .ok (JVal.num n)
              | .error e => .error e
            | .error e => .error e) : Except Err JVal) with
  | .error e => .error e
  | .ok levelValue =>
  match pyGetItem rl (.str "labels") with
  | .error e => .error e
  | .ok labels =>
  match pyGetItem labels (.num 0) with
  | .error e => .error e
  | .ok lab0 =>
  match pyGetItem lab0 (.str "label") with
  | .error e => .error e
  | .ok labelV =>
  match pyGetItem lab0 (.str "description") with
  | .error e => .error e
  | .ok descV =>
  match parseHtmlV descV with
  | .error e => .error e
  | .ok descD =>
    .ok (levelValue,
      JVal.obj [("level", .num idx), ("value", levelValue),
                ("label", labelV), ("description", descD)])

/-- The rating-level loop (lines 377-388): every level takes the int of
its own descriptor value except the last, which takes the country
maximum; each matching effective value moves the current index, which
starts at the last position. -/
def pcEntryLoop (maxm cur : JVal) (total : Nat) :
    List JVal → Nat → List JVal → Int → Except Err (List JVal × Int)
  | [], _, acc, curIdx => .ok (acc, curIdx)
  | rl :: rest, idx, acc, curIdx =>
    match pcOneEntry maxm total idx rl with
    | .error e => .error e
    | .ok p =>
      pcEntryLoop maxm cur total rest (idx + 1) (acc ++ [p.2])
        (if pyEq p.1 cur then (idx : Int) else curIdx)

/-- The effective values and entries of all levels, collected in order
(the specification-side view of the loop). -/
def pcCollect (maxm : JVal) (total : Nat) : List JVal → Nat →
    Except Err (List (JVal × JVal))
  | [], _ => .ok []
  | rl :: rest, idx =>
    match pcOneEntry maxm total idx rl with
    | .error e => .error e
    | .ok p =>
      match pcCollect maxm total rest (idx + 1) with
      | .error e => .error e
      | .ok ps => .ok (p :: ps)

/-- The index of the last effective value equal to the current maturity,
with a running default (the specification-side view of the current-index
accumulator). -/
def lastMatchFrom (cur : JVal) : List (JVal × JVal) → Nat → Int → Int
  | [], _, dflt => dflt
  | p :: rest, idx, dflt =>
    lastMatchFrom cur rest (idx + 1) (if pyEq p.1 cur then (idx : Int) else dflt)

/-- The try body of extract_parental_control_data (lines 366-388). -/
def pcBody (content : List Nat) (cur : JVal) : Except Err (List JVal × Int) :=
  match extract_json content "reactContext" with
  | .error e => .error e
  | .ok ctx =>
  match get_path PC_MAX_PATH ctx with
  | .error e => .error e
  | .ok maxm =>
  match get_path PC_LEVELS_PATH ctx with
  | .error e => .error e
  | .ok rc =>
  match pyIterItems rc with
  | .error e => .error e
  | .ok items =>
    pcEntryLoop maxm cur items.length items 0 [] ((items.length : Int) - 1)

/-- extract_parental_control_data (lines 364-393): a key-not-found
failure inside the body becomes WebsiteParsingError, an empty level
sequence is rejected after the body, and the result carries the level
dicts and the current index. -/
def extract_parental_control_data (content : List Nat) (cur : JVal) :
    Except Err JVal :=
  match pcBody content cur with
  | .error (.keyError _) =>
    .error (.websiteParsingError "Unable to get path in to reactContext data")
  | .error e => .error e
  | .ok (levels, curIdx) =>
    if levels.isEmpty then
      .error (.websiteParsingError "Unable to get maturity rating levels")
    else
      .ok (.obj [("rating_levels", .arr levels),
                 ("current_level_index", .num curIdx)])

/- ------------------------------------------------------------------ -/
/- Concrete inputs used by the witnesses                               -/
/- ------------------------------------------------------------------ -/

/-- A trivial localization table. -/
def locTest : Nat → String := fun _ => ""

/-- A trivial language-code translation. -/
def convTest : String → String := fun s => s

/-- An empty external world. -/
def wEmpty : World :=
  World.mk (LocalDB.mk [] [] [] "") (SharedDB.mk []) (AddonCfg.mk [] []) false

/-- A page whose react context has an active membership but a 5-character
auth URL. -/
def c4page : List Nat :=
  strBytes "netflix.reactContext = \x7b\"models\":\x7b\"userInfo\":\x7b\"data\":\x7b\"membershipStatus\":\"CURRENT_MEMBER\",\"authURL\":\"short\"\x7d\x7d\x7d\x7d;</script>"

/-- The parsed react context of c4page. -/
def c4ctx : JVal :=
  match extract_json c4page "reactContext" with
  | .ok v => v
  | .error _ => .null

/-- The extracted user data of c4page. -/
def c4u : List (String × JVal) :=
  match extract_userdata c4ctx with
  | .ok u => u
  | .error _ => []

/-- A page with an anonymous membership status. -/
def c5anonPage : List Nat :=
  strBytes "netflix.reactContext = \x7b\"models\":\x7b\"userInfo\":\x7b\"data\":\x7b\"membershipStatus\":\"ANONYMOUS\"\x7d\x7d\x7d\x7d;</script>"

def c5anonCtx : JVal :=
  match extract_json c5anonPage "reactContext" with
  | .ok v => v
  | .error _ => .null

def c5anonU : List (String × JVal) :=
  match extract_userdata c5anonCtx with
  | .ok u => u
  | .error _ => []

/-- A page with a never-member membership status. -/
def c5neverPage : List Nat :=
  strBytes "netflix.reactContext = \x7b\"models\":\x7b\"userInfo\":\x7b\"data\":\x7b\"membershipStatus\":\"NEVER_MEMBER\"\x7d\x7d\x7d\x7d;</script>"

def c5neverCtx : JVal :=
  match extract_json c5neverPage "reactContext" with
  | .ok v => v
  | .error _ => .null

def c5neverU : List (String × JVal) :=
  match extract_userdata c5neverCtx with
  | .ok u => u
  | .error _ => []

/-- A falcor cache whose profile list is empty. -/
def c7data : JVal := .obj [("profilesList", .obj [])]

/-- A page carrying the maturity example of the spec: levels 10 and 50
with a country maximum of 70. -/
def c8page : List Nat :=
  strBytes "netflix.reactContext = \x7b\"models\":\x7b\"parentalControls\":\x7b\"data\":\x7b\"accountProps\":\x7b\"countryMaxMaturity\":70\x7d\x7d\x7d,\"memberContext\":\x7b\"data\":\x7b\"userInfo\":\x7b\"ratingLevels\":[\x7b\"level\":10,\"labels\":[\x7b\"label\":\"L1\",\"description\":\"D1\"\x7d]\x7d,\x7b\"level\":50,\"labels\":[\x7b\"label\":\"L2\",\"description\":\"D2\"\x7d]\x7d]\x7d\x7d\x7d\x7d\x7d;</script>"

def c8ctx : JVal :=
  match extract_json c8page "reactContext" with
  | .ok v => v
  | .error _ => .null

def c8items : List JVal :=
  match get_path PC_LEVELS_PATH c8ctx with
  | .ok (.arr xs) => xs
  | _ => []

def c8r : JVal :=
  match extract_parental_control_data c8page (.num 70) with
  | .ok v => v
  | .error _ => .null

/-- The sort order stored for a guid in the local profile table. -/
def profSortL (ps : List (String × (JVal × Nat))) (g : String) : Option Nat :=
  (alookup ps g).map (fun p => p.2)

/-- The sort order stored for a guid in the shared profile table. -/
def profSortS (ps : List (String × Nat)) (g : String) : Option Nat :=
  alookup ps g

/-- The guid sequence the profile loop walks, in list order (the
specification-side view of the iteration). -/
def loopGuids : List (String × JVal) → Option (List String)
  | [] => some []
  | (_, pd) :: rest =>
    match jgraph_get "summary" pd none with
    | .ok summary =>
      match pyGetItem summary (.str "guid") with
      | .ok (.str g) => (loopGuids rest).map (fun t => g :: t)
      | _ => none
    | .error _ => none

/-- A reference cell for the concrete profile cache. -/
def c6ref (ids : List String) : JVal :=
  .obj [("$type", .str "ref"), ("value", .arr (ids.map JVal.str))]

/-- A concrete profile node. -/
def c6profile (g : String) (act : Bool) : JVal :=
  .obj [("summary", .obj
          [("guid", .str g), ("isActive", .bool act),
           ("language", .str "en-US"), ("profileName", .str "Name &amp; Co")]),
        ("avatar", c6ref ["avatars", "a1"])]

/-- A concrete falcor cache with profiles A, B, C in list order. -/
def c6data : JVal :=
  .obj [("profilesList", .obj
          [("0", c6ref ["profiles", "A"]),
           ("1", c6ref ["profiles", "B"]),
           ("2", c6ref ["profiles", "C"])]),
        ("profiles", .obj
          [("A", c6profile "A" true),
           ("B", c6profile "B" false),
           ("C", c6profile "C" false)]),
        ("avatars", .obj
          [("a1", .obj [("images", .obj [("byWidth", .obj
             [("320", .str "http-avatar")])])])])]

/-- A world whose local store already knows guids A and D. -/
def c6w : World :=
  World.mk
    (LocalDB.mk [] [("A", (JVal.bool true, 0)), ("D", (JVal.bool false, 1))]
      [] "A")
    (SharedDB.mk [("A", 0), ("D", 1)]) (AddonCfg.mk [] []) false

/-- The resolved profile entries of the concrete cache. -/
def c6entries : List (String × JVal) :=
  match jgraph_get_list "profilesList" c6data with
  | .ok l => l
  | .error _ => []

/-- C1: extract_json takes the first regex match only and applies the
repair substitutions in source order; on a well-formed, correctly-escaped
block the parsed tree carries exactly the intended strings.  First
conjunct: a block (spanning a line break, exercising the DOTALL match)
whose single string value contains an escaped double quote, the
sequences backslash-s, backslash-n, backslash-t, a lone backslash before
another letter, and a hex escape, round-trips to the intended text: the
escaped quote becomes a double quote, the protected two-character
sequences survive literally, the lone backslash survives, and the hex
escape decodes.  Second conjunct: a page with two blocks of the same
name yields the first block only. -/
theorem C1_extract_json_repair_roundtrip :
    extract_json
        (strBytes
          "netflix.reactContext = \x7b\n\"k\": \"a\\\"b\\sc\\nd\\te\\zf\\x41g\"\x7d;\n</script>")
        "reactContext"
      = .ok (.obj [("k", .str "a\"b\\sc\\nd\\te\\zfAg")])
  ∧ extract_json
        (strBytes
          "netflix.reactContext = \x7b\"a\": 1\x7d;</script> x netflix.reactContext = \x7b\"a\": 2\x7d;</script>")
        "reactContext"
      = .ok (.obj [("a", .num 1)]) :=
  ⟨rfl, rfl⟩

/-- C2: extract_json fails with WebsiteParsingError naming the block
whenever the named block does not occur in the page or the repaired text
does not parse as JSON, and returns a parsed tree exactly when the match
and the repair-parse both succeed. -/
theorem C2_extract_json_error_contract (content : List Nat) (name : String) :
    (∀ text, utf8Decode content = some text → findBlock name.data text = none →
      extract_json content name
        = .error (.websiteParsingError ("Unable to extract " ++ name)))
  ∧ (∀ text s, utf8Decode content = some text → findBlock name.data text = some s →
      isOkE (repairParse s) = false →
      extract_json content name
        = .error (.websiteParsingError ("Unable to extract " ++ name)))
  ∧ (∀ v, extract_json content name = .ok v →
      ∃ text s, utf8Decode content = some text ∧ findBlock name.data text = some s ∧
        repairParse s = .ok v) := by
  refine ⟨?_, ?_, ?_⟩
  · intro text h1 h2
    simp only [extract_json, h1, h2]
  · intro text s h1 h2 h3
    simp only [extract_json, h1, h2]
    cases h : repairParse s with
    | ok v => rw [h] at h3; simp [isOkE] at h3
    | error e => rfl
  · intro v hok
    cases h1 : utf8Decode content with
    | none =>
      simp only [extract_json, h1] at hok
      exact Except.noConfusion hok
    | some text =>
      cases h2 : findBlock name.data text with
      | none =>
        simp only [extract_json, h1, h2] at hok
        exact Except.noConfusion hok
      | some s =>
        cases h3 : repairParse s with
        | ok w =>
          simp only [extract_json, h1, h2, h3] at hok
          exact ⟨text, s, rfl, h2, by rw [h3]; injection hok with h; rw [h]⟩
        | error e =>
          simp only [extract_json, h1, h2, h3] at hok
          exact Except.noConfusion hok

/-- C2 witness: a page without the block fails with the named error. -/
theorem C2_extract_json_error_contract_witness :
    extract_json (strBytes "no block in this page") "reactContext"
      = .error (.websiteParsingError ("Unable to extract " ++ "reactContext")) :=
  (C2_extract_json_error_contract (strBytes "no block in this page")
    "reactContext").1 "no block in this page".data rfl rfl

/-- C10: for every input, extract_json either returns a parsed value or
fails with WebsiteParsingError; no other error kind escapes, because the
whole body is wrapped in a catch-all that re-raises WebsiteParsingError. -/
theorem C10_extract_json_exception_totality (content : List Nat) (name : String) :
    (∃ v, extract_json content name = .ok v) ∨
    extract_json content name
      = .error (.websiteParsingError ("Unable to extract " ++ name)) := by
  cases h1 : utf8Decode content with
  | none => exact Or.inr (by simp only [extract_json, h1])
  | some text =>
    cases h2 : findBlock name.data text with
    | none => exact Or.inr (by simp only [extract_json, h1, h2])
    | some s =>
      cases h3 : repairParse s with
      | ok v => exact Or.inl ⟨v, by simp only [extract_json, h1, h2, h3]⟩
      | error e => exact Or.inr (by simp only [extract_json, h1, h2, h3])

/-- C3: assert_valid_auth_url returns its input mapping unchanged when
the auth_url entry is a string of exactly 42 characters and raises
InvalidAuthURLError for a string of any other length; and every mapping
returned by extract_api_data has passed this check (its auth_url entry,
an empty string when absent, has len 42). -/
theorem C3_assert_valid_auth_url_contract :
    (∀ (m : List (String × JVal)) (s : String),
      lookupStr m "auth_url" = some (.str s) →
      ((s.length = 42 → assert_valid_auth_url m = .ok m)
       ∧ (s.length ≠ 42 →
          assert_valid_auth_url m
            = .error (.invalidAuthURLError "authURL is invalid"))))
  ∧ (∀ (ctx : JVal) (d : List (String × JVal)),
      extract_api_data ctx = .ok d →
      pyLen (pyDictGet d "auth_url" (.str "")) = .ok 42) := by
  constructor
  · intro m s h
    constructor
    · intro h42
      simp [assert_valid_auth_url, pyDictGet, h, pyLen, h42]
    · intro h42
      simp [assert_valid_auth_url, pyDictGet, h, pyLen, h42]
  · intro ctx d hok
    cases hc : collectApiData PAGE_ITEMS_API_URL ctx [] with
    | error e =>
      simp only [extract_api_data, hc] at hok
      exact Except.noConfusion hok
    | ok m =>
      simp only [extract_api_data, hc] at hok
      cases hl : pyLen (pyDictGet m "auth_url" (.str "")) with
      | error e =>
        simp only [assert_valid_auth_url, hl] at hok
        exact Except.noConfusion hok
      | ok n =>
        simp only [assert_valid_auth_url, hl] at hok
        by_cases h42 : n = 42
        · rw [if_pos h42] at hok
          injection hok with h
          rw [← h, hl, h42]
        · rw [if_neg h42] at hok
          exact Except.noConfusion hok

/-- C3 witness: a 42-character auth_url passes unchanged, a 41-character
one raises InvalidAuthURLError. -/
theorem C3_assert_valid_auth_url_contract_witness :
    assert_valid_auth_url
        [("auth_url", JVal.str "012345678901234567890123456789012345678901")]
      = .ok [("auth_url", JVal.str "012345678901234567890123456789012345678901")]
  ∧ assert_valid_auth_url
        [("auth_url", JVal.str "01234567890123456789012345678901234567890")]
      = .error (.invalidAuthURLError "authURL is invalid") :=
  ⟨(C3_assert_valid_auth_url_contract.1
      [("auth_url", JVal.str "012345678901234567890123456789012345678901")]
      "012345678901234567890123456789012345678901" rfl).1 (by decide),
   (C3_assert_valid_auth_url_contract.1
      [("auth_url", JVal.str "01234567890123456789012345678901234567890")]
      "01234567890123456789012345678901234567890" rfl).2 (by decide)⟩

/-- C9: validate_login is a no-op when the error-code path is absent;
when the path holds a string code and the translation table is a dict,
the message is resolved by the login-prefixed lookup first, then the
email-prefixed one, then the plain code, then the default localized
text, HTML tags are stripped, and the raised kind is the
incorrect-password one exactly when the code contains that substring;
when the code is present but the table path is missing, the generic
kind with the static message is raised. -/
theorem C9_validate_login_contract (loc : Nat → String) (tree : JVal) :
    (check_path_exists (splitChar '/' PAGE_ITEM_ERROR_CODE) tree = false →
      validate_login loc tree = .ok ())
  ∧ (∀ (code : String) (es : List (String × JVal)) (msg : String),
      get_path (splitChar '/' PAGE_ITEM_ERROR_CODE) tree = .ok (.str code) →
      get_path (splitChar '\\' PAGE_ITEM_ERROR_CODE_LIST) tree = .ok (.obj es) →
      (match lookupStr es ("login_" ++ code) with
       | some v => v
       | none =>
         match lookupStr es ("email_" ++ code) with
         | some v => v
         | none =>
           match lookupStr es code with
           | some v => v
           | none => .str (loc 30102 ++ code)) = .str msg →
      ((isSubstr "incorrect_password".data code.data = true →
        validate_login loc tree
          = .error (.loginValidateErrorIncorrectPassword (stripHtmlTags msg)))
       ∧ (isSubstr "incorrect_password".data code.data = false →
        validate_login loc tree
          = .error (.loginValidateError (stripHtmlTags msg)))))
  ∧ (∀ (code : String) (k : String),
      get_path (splitChar '/' PAGE_ITEM_ERROR_CODE) tree = .ok (.str code) →
      get_path (splitChar '\\' PAGE_ITEM_ERROR_CODE_LIST) tree
        = .error (.keyError k) →
      validate_login loc tree = .error (.loginValidateError VL_STATIC_MSG)) := by
  refine ⟨?_, ?_, ?_⟩
  · intro h
    simp only [validate_login, h]
    rfl
  · intro code es msg hcode hlist hres
    have hex : check_path_exists (splitChar '/' PAGE_ITEM_ERROR_CODE) tree = true := by
      simp [check_path_exists, hcode, isOkE]
    have hbody :
        vlBody loc tree (splitChar '\\' PAGE_ITEM_ERROR_CODE_LIST)
            (splitChar '/' PAGE_ITEM_ERROR_CODE)
          = (if isSubstr "incorrect_password".data code.data then
              .error (.loginValidateErrorIncorrectPassword (stripHtmlTags msg))
             else .error (.loginValidateError (stripHtmlTags msg))) := by
      cases h2 : lookupStr es ("login_" ++ code) with
      | some v =>
        rw [h2] at hres
        have hv : v = JVal.str msg := hres
        subst hv
        cases h1 : lookupStr es ("email_" ++ code) with
        | some w =>
          cases h0 : lookupStr es code with
          | some u =>
            simp [vlBody, hcode, hlist, pyIn, containsKeyS, h0, h1, h2, pyGetItem]
          | none =>
            simp [vlBody, hcode, hlist, pyIn, containsKeyS, h0, h1, h2, pyGetItem]
        | none =>
          cases h0 : lookupStr es code with
          | some u =>
            simp [vlBody, hcode, hlist, pyIn, containsKeyS, h0, h1, h2, pyGetItem]
          | none =>
            simp [vlBody, hcode, hlist, pyIn, containsKeyS, h0, h1, h2, pyGetItem]
      | none =>
        rw [h2] at hres
        cases h1 : lookupStr es ("email_" ++ code) with
        | some w =>
          rw [h1] at hres
          have hv : w = JVal.str msg := hres
          subst hv
          cases h0 : lookupStr es code with
          | some u =>
            simp [vlBody, hcode, hlist, pyIn, containsKeyS, h0, h1, h2, pyGetItem]
          | none =>
            simp [vlBody, hcode, hlist, pyIn, containsKeyS, h0, h1, h2, pyGetItem]
        | none =>
          rw [h1] at hres
          cases h0 : lookupStr es code with
          | some u =>
            rw [h0] at hres
            have hv : u = JVal.str msg := hres
            subst hv
            simp [vlBody, hcode, hlist, pyIn, containsKeyS, h0, h1, h2, pyGetItem]
          | none =>
            rw [h0] at hres
            have hv : JVal.str (loc 30102 ++ code) = JVal.str msg := hres
            have hmsg : loc 30102 ++ code = msg := by injection hv
            simp [vlBody, hcode, hlist, pyIn, containsKeyS, h0, h1, h2,
              pyGetItem, hmsg]
    constructor
    · intro hsub
      simp only [validate_login, hex, if_true, hbody, hsub, if_pos]
    · intro hsub
      simp only [validate_login, hex, if_true, hbody, hsub]
      rfl
  · intro code k hcode hlist
    have hex : check_path_exists (splitChar '/' PAGE_ITEM_ERROR_CODE) tree = true := by
      simp [check_path_exists, hcode, isOkE]
    simp only [validate_login, hex, if_true, vlBody, hlist]

/-- C9 witness: a tree whose error code contains the incorrect-password
substring, with a login-prefixed table entry carrying an HTML tag,
raises the incorrect-password kind with the tag stripped. -/
theorem C9_validate_login_contract_witness :
    validate_login (fun _ => "Error: ")
        (.obj [("models", .obj
          [("flow", .obj [("data", .obj [("fields", .obj
             [("errorCode", .obj [("value", .str "incorrect_password_generic")])])])]),
           ("i18nStrings", .obj [("data", .obj [("login/login", .obj
             [("login_incorrect_password_generic", .str "<b>Wrong password</b>")])])])])])
      = .error (.loginValidateErrorIncorrectPassword
          (stripHtmlTags "<b>Wrong password</b>")) :=
  ((C9_validate_login_contract (fun _ => "Error: ")
      (.obj [("models", .obj
        [("flow", .obj [("data", .obj [("fields", .obj
           [("errorCode", .obj [("value", .str "incorrect_password_generic")])])])]),
         ("i18nStrings", .obj [("data", .obj [("login/login", .obj
           [("login_incorrect_password_generic",
             .str "<b>Wrong password</b>")])])])])])).2.1
    "incorrect_password_generic"
    [("login_incorrect_password_generic", JVal.str "<b>Wrong password</b>")]
    "<b>Wrong password</b>" rfl rfl rfl).1 rfl

/-- C4: when the auth URL is missing or invalid, extract_session_data
raises InvalidAuthURLError with the external world exactly as it was:
every step before the api-data extraction (json extraction, login
validation, user-data extraction, membership checks) is pure, so no
set_value write has happened when the validation fails. -/
theorem C4_no_write_before_auth_validation
    (loc : Nat → String) (conv : String → String) (genEsn : JVal)
    (content : List Nat) (validate update_profiles debugVerbose : Bool)
    (w : World) (ctx : JVal) (u : List (String × JVal)) (m : String)
    (h1 : extract_json content "reactContext" = .ok ctx)
    (h2 : (if validate then validate_login loc ctx else .ok ()) = .ok ())
    (h3 : extract_userdata ctx = .ok u)
    (h4 : pyEq (pyDictGet u "membershipStatus" .null) (.str "ANONYMOUS") = false)
    (h5 : pyEq (pyDictGet u "membershipStatus" .null) (.str "CURRENT_MEMBER") = true)
    (h6 : extract_api_data ctx = .error (.invalidAuthURLError m)) :
    extract_session_data loc conv genEsn content validate update_profiles
        debugVerbose w
      = .err (.invalidAuthURLError m) w := by
  simp only [extract_session_data, h1, h2, h3, h4, h5, sessionAfterChecks, h6,
    Bool.false_eq_true, if_false, Bool.not_true, Bool.true_eq_false]

/-- C4 witness: a page with an active membership and a 5-character auth
URL fails with InvalidAuthURLError and leaves the world untouched. -/
theorem C4_no_write_before_auth_validation_witness :
    extract_session_data locTest convTest .null c4page false false false wEmpty
      = .err (.invalidAuthURLError "authURL is invalid") wEmpty :=
  C4_no_write_before_auth_validation locTest convTest .null c4page false false
    false wEmpty c4ctx c4u "authURL is invalid" rfl rfl rfl rfl rfl rfl

/-- C5: with the user data extracted, extract_session_data raises the
anonymous kind when the membership status equals ANONYMOUS, raises
InvalidMembershipStatusError carrying the status when it is any other
value different from CURRENT_MEMBER, and proceeds to the rest of the
pipeline exactly when it equals CURRENT_MEMBER. -/
theorem C5_membership_status_checks
    (loc : Nat → String) (conv : String → String) (genEsn : JVal)
    (content : List Nat) (validate update_profiles debugVerbose : Bool)
    (w : World) (ctx : JVal) (u : List (String × JVal))
    (h1 : extract_json content "reactContext" = .ok ctx)
    (h2 : (if validate then validate_login loc ctx else .ok ()) = .ok ())
    (h3 : extract_userdata ctx = .ok u) :
    (pyEq (pyDictGet u "membershipStatus" .null) (.str "ANONYMOUS") = true →
      extract_session_data loc conv genEsn content validate update_profiles
          debugVerbose w
        = .err .invalidMembershipStatusAnonymous w)
  ∧ (pyEq (pyDictGet u "membershipStatus" .null) (.str "ANONYMOUS") = false →
     pyEq (pyDictGet u "membershipStatus" .null) (.str "CURRENT_MEMBER") = false →
      extract_session_data loc conv genEsn content validate update_profiles
          debugVerbose w
        = .err (.invalidMembershipStatusError
            (pyDictGet u "membershipStatus" .null)) w)
  ∧ (pyEq (pyDictGet u "membershipStatus" .null) (.str "ANONYMOUS") = false →
     pyEq (pyDictGet u "membershipStatus" .null) (.str "CURRENT_MEMBER") = true →
      extract_session_data loc conv genEsn content validate update_profiles
          debugVerbose w
        = sessionAfterChecks conv genEsn content update_profiles debugVerbose
            ctx u w) := by
  refine ⟨?_, ?_, ?_⟩
  · intro h4
    simp only [extract_session_data, h1, h2, h3, h4, if_true]
  · intro h4 h5
    simp only [extract_session_data, h1, h2, h3, h4, h5, Bool.false_eq_true,
      if_false, Bool.not_false, if_true]
  · intro h4 h5
    simp only [extract_session_data, h1, h2, h3, h4, h5, Bool.false_eq_true,
      if_false, Bool.not_true, Bool.true_eq_false]

/-- C5 witness: the three statuses at concrete pages: ANONYMOUS raises
the anonymous kind, NEVER_MEMBER raises the carrying kind, and
CURRENT_MEMBER hands over to the rest of the pipeline. -/
theorem C5_membership_status_checks_witness :
    extract_session_data locTest convTest .null c5anonPage false false false
        wEmpty
      = .err .invalidMembershipStatusAnonymous wEmpty
  ∧ extract_session_data locTest convTest .null c5neverPage false false false
        wEmpty
      = .err (.invalidMembershipStatusError (.str "NEVER_MEMBER")) wEmpty
  ∧ extract_session_data locTest convTest .null c4page false false false wEmpty
      = sessionAfterChecks convTest .null c4page false false c4ctx c4u wEmpty :=
  ⟨(C5_membership_status_checks locTest convTest .null c5anonPage false false
      false wEmpty c5anonCtx c5anonU rfl rfl rfl).1 rfl,
   by
    have h := (C5_membership_status_checks locTest convTest .null c5neverPage
      false false false wEmpty c5neverCtx c5neverU rfl rfl rfl).2.1 rfl rfl
    exact h,
   (C5_membership_status_checks locTest convTest .null c4page false false
      false wEmpty c4ctx c4u rfl rfl rfl).2.2 rfl rfl⟩

/-- C7 counterexample: on a cache whose profile list resolves to the
empty collection, parse_profiles raises InvalidProfilesError (the
empty-list raise inside the try block is itself caught by the catch-all
and re-raised bare), not the ProfilesMissing kind the claim names. -/
theorem C7_counterexample_empty_list_error_kind :
    parse_profiles convTest c7data wEmpty
      = .err (.invalidProfilesError none) wEmpty
  ∧ ∀ w', parse_profiles convTest c7data wEmpty ≠ .err .profilesMissing w' := by
  constructor
  · rfl
  · intro w' h
    have h2 : MRes.err (α := Unit) (Err.invalidProfilesError none) wEmpty
        = MRes.err Err.profilesMissing w' := h
    injection h2 with he hw
    exact Err.noConfusion he

/-- C7 amended: a navigation failure on the profile-list path propagates
raw (the list is resolved outside the try block); an empty resolved list
raises InvalidProfilesError; and whenever the list resolves, the call
either succeeds or fails with the bare InvalidProfilesError that the
catch-all substitutes for any exception raised during the pass. -/
theorem C7_profiles_error_contract (conv : String → String) (data : JVal)
    (w : World) :
    (∀ e, jgraph_get_list "profilesList" data = .error e →
      parse_profiles conv data w = .err e w)
  ∧ (jgraph_get_list "profilesList" data = .ok [] →
      parse_profiles conv data w = .err (.invalidProfilesError none) w)
  ∧ (∀ pl, jgraph_get_list "profilesList" data = .ok pl →
      resIsOk (parse_profiles conv data w) = true ∨
      ∃ w', parse_profiles conv data w = .err (.invalidProfilesError none) w') := by
  refine ⟨?_, ?_, ?_⟩
  · intro e he
    simp only [parse_profiles, he]
  · intro he
    simp only [parse_profiles, he, parseProfilesBody, List.isEmpty_nil, if_true]
  · intro pl hpl
    simp only [parse_profiles, hpl]
    cases hb : parseProfilesBody conv data pl w with
    | ok a w1 => exact Or.inl rfl
    | err e w1 => exact Or.inr ⟨w1, rfl⟩

/-- C7 amended witness: the empty-list case at the concrete cache. -/
theorem C7_profiles_error_contract_witness :
    parse_profiles convTest c7data wEmpty
      = .err (.invalidProfilesError none) wEmpty :=
  (C7_profiles_error_contract convTest c7data wEmpty).2.1 rfl

/-- A successful entry body yields the country maximum at the last index,
the int of the own descriptor elsewhere, and an entry dict carrying the
index and the effective value. -/
theorem pcOneEntry_spec (maxm : JVal) (total idx : Nat) (rl : JVal)
    (p : JVal × JVal) (h : pcOneEntry maxm total idx rl = .ok p) :
    (idx = total - 1 → p.1 = maxm)
  ∧ (idx ≠ total - 1 →
      ∃ lv n, pyGetItem rl (.str "level") = .ok lv ∧ pyInt lv = .ok n ∧
        p.1 = .num n)
  ∧ ∃ lab des, p.2 = .obj [("level", .num idx), ("value", p.1),
      ("label", lab), ("description", des)] := by
  rw [pcOneEntry] at h
  cases hv : ((if idx = total - 1 then .ok maxm
          else
            match pyGetItem rl (.str "level") with
            | .ok lv =>
              match pyInt lv with
              | .ok n => .ok (JVal.num n)
              | .error e => .error e
            | .error e => .error e) : Except Err JVal) with
  | error e => rw [hv] at h; exact Except.noConfusion h
  | ok levelValue =>
    simp only [hv] at h
    cases ha : pyGetItem rl (.str "labels") with
    | error e => simp only [ha] at h; exact Except.noConfusion h
    | ok labels =>
      simp only [ha] at h
      cases hb : pyGetItem labels (.num 0) with
      | error e => simp only [hb] at h; exact Except.noConfusion h
      | ok lab0 =>
        simp only [hb] at h
        cases hc : pyGetItem lab0 (.str "label") with
        | error e => simp only [hc] at h; exact Except.noConfusion h
        | ok labelV =>
          simp only [hc] at h
          cases hd : pyGetItem lab0 (.str "description") with
          | error e => simp only [hd] at h; exact Except.noConfusion h
          | ok descV =>
            simp only [hd] at h
            cases he : parseHtmlV descV with
            | error e => simp only [he] at h; exact Except.noConfusion h
            | ok descD =>
              simp only [he] at h
              injection h with h
              subst h
              refine ⟨?_, ?_, labelV, descD, rfl⟩
              · intro hidx
                rw [if_pos hidx] at hv
                injection hv with hv
                exact hv.symm
              · intro hidx
                rw [if_neg hidx] at hv
                cases hl : pyGetItem rl (.str "level") with
                | error e => rw [hl] at hv; exact Except.noConfusion hv
                | ok lv =>
                  simp only [hl] at hv
                  cases hn : pyInt lv with
                  | error e => simp only [hn] at hv; exact Except.noConfusion hv
                  | ok n =>
                    simp only [hn] at hv
                    injection hv with hv
                    exact ⟨lv, n, rfl, hn, hv.symm⟩

/-- The loop is the collected entries appended to the accumulator,
paired with the last-match index. -/
theorem pcEntryLoop_eq_collect (maxm cur : JVal) (total : Nat) :
    ∀ (items : List JVal) (idx : Nat) (acc : List JVal) (curIdx : Int),
    pcEntryLoop maxm cur total items idx acc curIdx
      = match pcCollect maxm total items idx with
        | .error e => .error e
        | .ok ps => .ok (acc ++ ps.map Prod.snd, lastMatchFrom cur ps idx curIdx) := by
  intro items
  induction items with
  | nil =>
    intro idx acc curIdx
    simp [pcEntryLoop, pcCollect, lastMatchFrom]
  | cons rl rest ih =>
    intro idx acc curIdx
    cases h : pcOneEntry maxm total idx rl with
    | error e => simp only [pcEntryLoop, pcCollect, h]
    | ok p =>
      simp only [pcEntryLoop, pcCollect, h]
      rw [ih]
      cases hc : pcCollect maxm total rest (idx + 1) with
      | error e => simp only [hc]
      | ok ps =>
        simp only [hc, lastMatchFrom]
        simp [List.append_assoc]

/-- The collection has one pair per level descriptor. -/
theorem pcCollect_length (maxm : JVal) (total : Nat) :
    ∀ (items : List JVal) (idx : Nat) (ps : List (JVal × JVal)),
    pcCollect maxm total items idx = .ok ps → ps.length = items.length := by
  intro items
  induction items with
  | nil =>
    intro idx ps h
    injection h with h
    rw [← h]
    rfl
  | cons rl rest ih =>
    intro idx ps h
    rw [pcCollect] at h
    cases h1 : pcOneEntry maxm total idx rl with
    | error e => rw [h1] at h; exact Except.noConfusion h
    | ok p =>
      simp only [h1] at h
      cases h2 : pcCollect maxm total rest (idx + 1) with
      | error e => simp only [h2] at h; exact Except.noConfusion h
      | ok tail =>
        simp only [h2] at h
        injection h with h
        rw [← h]
        simp [ih (idx + 1) tail h2]

/-- Per-index facts of the collection: the last overall index takes the
country maximum, every other index the int of its own descriptor, and
each entry dict carries its index and effective value. -/
theorem pcCollect_values (maxm : JVal) (total : Nat) :
    ∀ (items : List JVal) (idx : Nat) (ps : List (JVal × JVal)),
    pcCollect maxm total items idx = .ok ps →
    ∀ (j : Nat) (hj : j < ps.length) (hj2 : j < items.length),
      (idx + j = total - 1 → (ps.get ⟨j, hj⟩).1 = maxm)
    ∧ (idx + j ≠ total - 1 →
        ∃ lv n, pyGetItem (items.get ⟨j, hj2⟩) (.str "level") = .ok lv ∧
          pyInt lv = .ok n ∧ (ps.get ⟨j, hj⟩).1 = .num n)
    ∧ ∃ lab des, (ps.get ⟨j, hj⟩).2
        = .obj [("level", .num (idx + j)), ("value", (ps.get ⟨j, hj⟩).1),
                ("label", lab), ("description", des)] := by
  intro items
  induction items with
  | nil =>
    intro idx ps h j hj hj2
    exact absurd hj2 (by simp)
  | cons rl rest ih =>
    intro idx ps h j hj hj2
    rw [pcCollect] at h
    cases h1 : pcOneEntry maxm total idx rl with
    | error e => rw [h1] at h; exact Except.noConfusion h
    | ok p =>
      simp only [h1] at h
      cases h2 : pcCollect maxm total rest (idx + 1) with
      | error e => simp only [h2] at h; exact Except.noConfusion h
      | ok tail =>
        simp only [h2] at h
        injection h with h
        subst h
        cases j with
        | zero =>
          have hs := pcOneEntry_spec maxm total idx rl p h1
          exact ⟨fun hi => hs.1 (by omega), fun hi => hs.2.1 (by omega), hs.2.2⟩
        | succ jj =>
          have := ih (idx + 1) tail h2 jj (by simpa using hj) (by simpa using hj2)
          refine ⟨?_, ?_, ?_⟩
          · intro hi
            exact this.1 (by omega)
          · intro hi
            exact this.2.1 (by omega)
          · have h3 := this.2.2
            have hcast : ((idx + 1 : Nat) : Int) + (jj : Int)
                = (idx : Int) + ((jj + 1 : Nat) : Int) := by
              push_cast
              omega
            rw [hcast] at h3
            exact h3

/-- When no effective value matches, the accumulator keeps its running
default. -/
theorem lastMatchFrom_no_match (cur : JVal) :
    ∀ (ps : List (JVal × JVal)) (idx : Nat) (d : Int),
    (∀ (j : Nat) (hj : j < ps.length), pyEq (ps.get ⟨j, hj⟩).1 cur = false) →
    lastMatchFrom cur ps idx d = d := by
  intro ps
  induction ps with
  | nil => intro idx d _; rfl
  | cons p rest ih =>
    intro idx d hno
    have h0 : pyEq p.1 cur = false := hno 0 (by simp)
    rw [lastMatchFrom, h0]
    simp only [Bool.false_eq_true, if_false]
    exact ih (idx + 1) d (fun j hj => hno (j + 1) (by simpa using hj))

/-- The accumulator returns the position of the last match. -/
theorem lastMatchFrom_last_match (cur : JVal) :
    ∀ (ps : List (JVal × JVal)) (idx : Nat) (d : Int) (j : Nat)
      (hj : j < ps.length),
    pyEq (ps.get ⟨j, hj⟩).1 cur = true →
    (∀ (j2 : Nat) (hj2 : j2 < ps.length), j < j2 →
      pyEq (ps.get ⟨j2, hj2⟩).1 cur = false) →
    lastMatchFrom cur ps idx d = ((idx + j : Nat) : Int) := by
  intro ps
  induction ps with
  | nil =>
    intro idx d j hj
    exact absurd hj (by simp)
  | cons p rest ih =>
    intro idx d j hj hmatch hafter
    cases j with
    | zero =>
      have h0 : pyEq p.1 cur = true := hmatch
      rw [lastMatchFrom, h0, if_pos rfl]
      have hrest : ∀ (j2 : Nat) (hj2 : j2 < rest.length),
          pyEq (rest.get ⟨j2, hj2⟩).1 cur = false := by
        intro j2 hj2
        exact hafter (j2 + 1) (by simpa using hj2) (by omega)
      rw [lastMatchFrom_no_match cur rest (idx + 1) idx hrest]
      simp
    | succ jj =>
      rw [lastMatchFrom]
      have := ih (idx + 1) (if pyEq p.1 cur then (idx : Int) else d) jj
        (by simpa using hj) hmatch
        (fun j2 hj2 hgt => hafter (j2 + 1) (by simpa using hj2) (by omega))
      rw [this]
      simp
      omega

/-- C8: with the react context extracted and the two required paths
present, a successful extract_parental_control_data returns one entry
per level descriptor where every effective value is the int of its own
descriptor EXCEPT the last, which is the country maximum; the current
level index is the (last) index whose effective value equals the
caller-supplied maturity and defaults to the last index when no match
exists; a missing required path gives the path ParsingError and an
empty level sequence the empty-levels ParsingError. -/
theorem C8_parental_control_contract (content : List Nat) (cur : JVal) :
    (∀ (ctx maxm : JVal) (items : List JVal) (r : JVal),
      extract_json content "reactContext" = .ok ctx →
      get_path PC_MAX_PATH ctx = .ok maxm →
      get_path PC_LEVELS_PATH ctx = .ok (.arr items) →
      extract_parental_control_data content cur = .ok r →
      ∃ ps, pcCollect maxm items.length items 0 = .ok ps ∧
        ps.length = items.length ∧
        r = .obj [("rating_levels", .arr (ps.map Prod.snd)),
                  ("current_level_index",
                   .num (lastMatchFrom cur ps 0 ((items.length : Int) - 1)))] ∧
        (∀ (j : Nat) (hj : j < ps.length) (hj2 : j < items.length),
          (j = items.length - 1 → (ps.get ⟨j, hj⟩).1 = maxm)
          ∧ (j ≠ items.length - 1 →
              ∃ lv n, pyGetItem (items.get ⟨j, hj2⟩) (.str "level") = .ok lv ∧
                pyInt lv = .ok n ∧ (ps.get ⟨j, hj⟩).1 = .num n)
          ∧ ∃ lab des, (ps.get ⟨j, hj⟩).2
              = .obj [("level", .num j), ("value", (ps.get ⟨j, hj⟩).1),
                      ("label", lab), ("description", des)]) ∧
        ((∀ (j : Nat) (hj : j < ps.length),
            pyEq (ps.get ⟨j, hj⟩).1 cur = false) →
          lastMatchFrom cur ps 0 ((items.length : Int) - 1)
            = (items.length : Int) - 1) ∧
        (∀ (j : Nat) (hj : j < ps.length),
          pyEq (ps.get ⟨j, hj⟩).1 cur = true →
          (∀ (j2 : Nat) (hj2 : j2 < ps.length), j < j2 →
            pyEq (ps.get ⟨j2, hj2⟩).1 cur = false) →
          lastMatchFrom cur ps 0 ((items.length : Int) - 1) = (j : Int)))
  ∧ (∀ (ctx : JVal) (k : String),
      extract_json content "reactContext" = .ok ctx →
      (get_path PC_MAX_PATH ctx = .error (.keyError k) ∨
       (∃ mm, get_path PC_MAX_PATH ctx = .ok mm ∧
              get_path PC_LEVELS_PATH ctx = .error (.keyError k))) →
      extract_parental_control_data content cur
        = .error (.websiteParsingError "Unable to get path in to reactContext data"))
  ∧ (∀ (ctx maxm : JVal),
      extract_json content "reactContext" = .ok ctx →
      get_path PC_MAX_PATH ctx = .ok maxm →
      get_path PC_LEVELS_PATH ctx = .ok (.arr []) →
      extract_parental_control_data content cur
        = .error (.websiteParsingError "Unable to get maturity rating levels")) := by
  refine ⟨?_, ?_, ?_⟩
  · intro ctx maxm items r h1 h2 h3 hok
    have hbody : pcBody content cur
        = pcEntryLoop maxm cur items.length items 0 [] ((items.length : Int) - 1) := by
      simp only [pcBody, h1, h2, h3, pyIterItems]
    rw [pcEntryLoop_eq_collect] at hbody
    cases hc : pcCollect maxm items.length items 0 with
    | error e =>
      rw [hc] at hbody
      rw [extract_parental_control_data, hbody] at hok
      cases e <;> exact Except.noConfusion hok
    | ok ps =>
      rw [hc] at hbody
      refine ⟨ps, rfl, pcCollect_length maxm items.length items 0 ps hc, ?_, ?_, ?_, ?_⟩
      · rw [extract_parental_control_data, hbody] at hok
        simp only [List.nil_append] at hok
        by_cases hemp : (List.map Prod.snd ps).isEmpty = true
        · rw [if_pos hemp] at hok
          exact Except.noConfusion hok
        · rw [if_neg hemp] at hok
          injection hok with hok
          rw [← hok]
      · intro j hj hj2
        have := pcCollect_values maxm items.length items 0 ps hc j hj hj2
        simpa using this
      · intro hno
        exact lastMatchFrom_no_match cur ps 0 ((items.length : Int) - 1) hno
      · intro j hj hm hafter
        have := lastMatchFrom_last_match cur ps 0 ((items.length : Int) - 1)
          j hj hm hafter
        simpa using this
  · intro ctx k h1 hcase
    cases hcase with
    | inl h2 =>
      have hbody : pcBody content cur = .error (.keyError k) := by
        simp only [pcBody, h1, h2]
      rw [extract_parental_control_data, hbody]
    | inr h2 =>
      obtain ⟨mm, h2a, h2b⟩ := h2
      have hbody : pcBody content cur = .error (.keyError k) := by
        simp only [pcBody, h1, h2a, h2b]
      rw [extract_parental_control_data, hbody]
  · intro ctx maxm h1 h2 h3
    have hbody : pcBody content cur = .ok ([], -1) := by
      simp only [pcBody, h1, h2, h3, pyIterItems, pcEntryLoop]
      rfl
    rw [extract_parental_control_data, hbody]
    rfl

/-- Lookup after an upsert at the same key. -/
theorem alookup_aupsert_self {κ : Type} [DecidableEq κ] {β : Type}
    (l : List (κ × β)) (k : κ) (v : β) :
    alookup (aupsert l k v) k = some v := by
  induction l with
  | nil => simp [aupsert, alookup]
  | cons p rest ih =>
    obtain ⟨k0, v0⟩ := p
    by_cases h : k0 = k
    · simp [aupsert, alookup, h]
    · simp [aupsert, alookup, h, ih]

/-- Lookup after an upsert at a different key. -/
theorem alookup_aupsert_ne {κ : Type} [DecidableEq κ] {β : Type}
    (l : List (κ × β)) (k : κ) (v : β) (g : κ) (h : g ≠ k) :
    alookup (aupsert l k v) g = alookup l g := by
  induction l with
  | nil => simp [aupsert, alookup, Ne.symm h]
  | cons p rest ih =>
    obtain ⟨k0, v0⟩ := p
    by_cases h0 : k0 = k
    · subst h0
      simp [aupsert, alookup, Ne.symm h]
    · by_cases h1 : k0 = g
      · simp [aupsert, alookup, h0, h1, h]
      · simp [aupsert, alookup, h0, h1, ih]

/-- The key set after an upsert. -/
theorem alookup_aupsert_isSome {κ : Type} [DecidableEq κ] {β : Type}
    (l : List (κ × β)) (k : κ) (v : β) (g : κ) :
    (alookup (aupsert l k v) g).isSome = true ↔
      (g = k ∨ (alookup l g).isSome = true) := by
  by_cases h : g = k
  · subst h
    simp [alookup_aupsert_self]
  · simp [alookup_aupsert_ne l k v g h, h]

/-- Deleting a key removes it. -/
theorem alookup_filter_self {β : Type} (l : List (String × β)) (g : String) :
    alookup (l.filter (fun p => p.1 ≠ g)) g = none := by
  induction l with
  | nil => simp [alookup]
  | cons p rest ih =>
    obtain ⟨k0, v0⟩ := p
    simp only [ne_eq, decide_not] at ih
    by_cases h : k0 = g
    · subst h
      simp [List.filter_cons, ih]
    · simp [List.filter_cons, h, alookup, ih]

/-- Deleting one key leaves the others. -/
theorem alookup_filter_ne {β : Type} (l : List (String × β)) (g g2 : String)
    (h : g2 ≠ g) :
    alookup (l.filter (fun p => p.1 ≠ g)) g2 = alookup l g2 := by
  induction l with
  | nil => simp
  | cons p rest ih =>
    obtain ⟨k0, v0⟩ := p
    simp only [ne_eq, decide_not] at ih
    by_cases h0 : k0 = g
    · subst h0
      simp [List.filter_cons, alookup, Ne.symm h, ih]
    · by_cases h1 : k0 = g2
      · simp [List.filter_cons, h0, alookup, h1, h]
      · simp [List.filter_cons, h0, alookup, h1, ih]

/-- A present key occurs among the stored keys. -/
theorem mem_fst_of_alookup_isSome {β : Type} (l : List (String × β))
    (g : String) (h : (alookup l g).isSome = true) :
    g ∈ l.map (fun p => p.1) := by
  induction l with
  | nil => simp [alookup] at h
  | cons p rest ih =>
    obtain ⟨k0, v0⟩ := p
    by_cases h0 : k0 = g
    · simp [h0]
    · rw [alookup, if_neg h0] at h
      simp [ih h]

@[simp] theorem wSetValue_ldb_profiles (w : World) (tk : String × String)
    (v : JVal) : (wSetValue w tk v).ldb.profiles = w.ldb.profiles := rfl

@[simp] theorem wSetValue_sdb_profiles (w : World) (tk : String × String)
    (v : JVal) : (wSetValue w tk v).sdb.profiles = w.sdb.profiles := rfl

@[simp] theorem wSetSetting_ldb_profiles (w : World) (k v : String) :
    (wSetSetting w k v).ldb.profiles = w.ldb.profiles := rfl

@[simp] theorem wSetSetting_sdb_profiles (w : World) (k v : String) :
    (wSetSetting w k v).sdb.profiles = w.sdb.profiles := rfl

@[simp] theorem wSetSettingBool_ldb_profiles (w : World) (k : String)
    (v : Bool) : (wSetSettingBool w k v).ldb.profiles = w.ldb.profiles := rfl

@[simp] theorem wSetSettingBool_sdb_profiles (w : World) (k : String)
    (v : Bool) : (wSetSettingBool w k v).sdb.profiles = w.sdb.profiles := rfl

@[simp] theorem wSuspend_ldb_profiles (w : World) (b : Bool) :
    (wSuspend w b).ldb.profiles = w.ldb.profiles := rfl

@[simp] theorem wSuspend_sdb_profiles (w : World) (b : Bool) :
    (wSuspend w b).sdb.profiles = w.sdb.profiles := rfl

@[simp] theorem wSetProfileConfig_ldb_profiles (w : World) (g k : String)
    (v : JVal) : (wSetProfileConfig w g k v).ldb.profiles = w.ldb.profiles := rfl

@[simp] theorem wSetProfileConfig_sdb_profiles (w : World) (g k : String)
    (v : JVal) : (wSetProfileConfig w g k v).sdb.profiles = w.sdb.profiles := rfl

@[simp] theorem wSetProfileLocal_ldb_profiles (w : World) (g : String)
    (a : JVal) (s : Nat) :
    (wSetProfileLocal w g a s).ldb.profiles = aupsert w.ldb.profiles g (a, s) :=
  rfl

@[simp] theorem wSetProfileLocal_sdb_profiles (w : World) (g : String)
    (a : JVal) (s : Nat) :
    (wSetProfileLocal w g a s).sdb.profiles = w.sdb.profiles := rfl

@[simp] theorem wSetProfileShared_ldb_profiles (w : World) (g : String)
    (s : Nat) : (wSetProfileShared w g s).ldb.profiles = w.ldb.profiles := rfl

@[simp] theorem wSetProfileShared_sdb_profiles (w : World) (g : String)
    (s : Nat) :
    (wSetProfileShared w g s).sdb.profiles = aupsert w.sdb.profiles g s := rfl

@[simp] theorem wDeleteProfile_ldb_profiles (w : World) (g : String) :
    (wDeleteProfile w g).ldb.profiles
      = w.ldb.profiles.filter (fun p => p.1 ≠ g) := rfl

@[simp] theorem wDeleteProfile_sdb_profiles (w : World) (g : String) :
    (wDeleteProfile w g).sdb.profiles
      = w.sdb.profiles.filter (fun p => p.1 ≠ g) := rfl

@[simp] theorem wSwitchActive_sdb_profiles (w : World) (a : String) :
    (wSwitchActive w a).sdb.profiles = w.sdb.profiles := rfl

/-- Switching the active profile only rewrites the activity flags, so the
stored sort orders are untouched. -/
@[simp] theorem profSortL_switch (w : World) (a g : String) :
    profSortL (wSwitchActive w a).ldb.profiles g
      = profSortL w.ldb.profiles g := by
  show profSortL (w.ldb.profiles.map
      (fun p => (p.1, (JVal.bool (p.1 = a), p.2.2)))) g
    = profSortL w.ldb.profiles g
  induction w.ldb.profiles with
  | nil => rfl
  | cons p rest ih =>
    obtain ⟨k0, v0⟩ := p
    by_cases h : k0 = g
    · simp [profSortL, alookup, h]
    · simp only [List.map_cons]
      rw [profSortL, alookup, if_neg h, profSortL, alookup, if_neg h]
      exact ih

/-- The configuration loop only writes profile configuration entries:
both profile tables are untouched, whatever the outcome. -/
theorem configLoop_profiles (g : String) :
    ∀ (entries : List (String × JVal)) (w : World),
    (resWorld (configLoop g entries w)).ldb.profiles = w.ldb.profiles ∧
    (resWorld (configLoop g entries w)).sdb.profiles = w.sdb.profiles := by
  intro entries
  induction entries with
  | nil => intro w; exact ⟨rfl, rfl⟩
  | cons kv rest ih =>
    intro w
    obtain ⟨k, v⟩ := kv
    cases h : (if k = "profileName" then parseHtmlV v else Except.ok v) with
    | error e => simp [configLoop, h, resWorld]
    | ok v2 =>
      have := ih (wSetProfileConfig w g k v2)
      simp only [configLoop, h]
      simpa using this

/-- Sort lookup after an upsert of the same guid. -/
theorem profSortL_aupsert_self (l : List (String × (JVal × Nat))) (k : String)
    (a : JVal) (s : Nat) : profSortL (aupsert l k (a, s)) k = some s := by
  simp [profSortL, alookup_aupsert_self]

/-- Sort lookup after an upsert of a different guid. -/
theorem profSortL_aupsert_ne (l : List (String × (JVal × Nat))) (k : String)
    (av : JVal × Nat) (g : String) (h : g ≠ k) :
    profSortL (aupsert l k av) g = profSortL l g := by
  simp [profSortL, alookup_aupsert_ne l k av g h]

/-- Sort presence is key presence. -/
theorem profSortL_isSome (l : List (String × (JVal × Nat))) (g : String) :
    (profSortL l g).isSome = (alookup l g).isSome := by
  cases h : alookup l g with
  | none => simp [profSortL, h]
  | some p => simp [profSortL, h]

/-- The profile iteration: it walks exactly the loop guids in list order,
writes each to both stores with its running sort order, leaves every
other guid untouched, and grows the local key set by exactly the loop
guids. -/
theorem profileLoop_spec (conv : String → String) (data : JVal) :
    ∀ (entries : List (String × JVal)) (k : Nat) (gs0 : List String)
      (w : World) (gs : List String) (w2 : World),
    profileLoop conv data entries k gs0 w = .ok gs w2 →
    ∃ gl, loopGuids entries = some gl ∧ gs = gs0 ++ gl ∧
      (∀ g, ¬ g ∈ gl →
        profSortL w2.ldb.profiles g = profSortL w.ldb.profiles g ∧
        profSortS w2.sdb.profiles g = profSortS w.sdb.profiles g) ∧
      (gl.Nodup → ∀ (i : Nat) (hi : i < gl.length),
        profSortL w2.ldb.profiles (gl.get ⟨i, hi⟩) = some (k + i) ∧
        profSortS w2.sdb.profiles (gl.get ⟨i, hi⟩) = some (k + i)) ∧
      (∀ g, ((profSortL w2.ldb.profiles g).isSome = true ↔
        ((profSortL w.ldb.profiles g).isSome = true ∨ g ∈ gl))) := by
  intro entries
  induction entries with
  | nil =>
    intro k gs0 w gs w2 h
    injection h with h1 h2
    refine ⟨[], rfl, ?_, ?_, ?_, ?_⟩
    · rw [← h1]
      simp
    · intro g _
      rw [← h2]
      exact ⟨rfl, rfl⟩
    · intro _ i hi
      exact absurd hi (by simp)
    · intro g
      rw [← h2]
      simp
  | cons entry rest ih =>
    intro k gs0 w gs w2 h
    obtain ⟨ekey, pd⟩ := entry
    simp only [profileLoop] at h
    cases hsum : jgraph_get "summary" pd none with
    | error e => rw [hsum] at h; exact MRes.noConfusion h
    | ok summary =>
      simp only [hsum] at h
      cases hguid : pyGetItem summary (.str "guid") with
      | error e => simp only [hguid] at h; exact MRes.noConfusion h
      | ok gv =>
        simp only [hguid] at h
        cases gv with
        | null => exact MRes.noConfusion h
        | bool b => exact MRes.noConfusion h
        | num n => exact MRes.noConfusion h
        | jfloat a b c => exact MRes.noConfusion h
        | nan => exact MRes.noConfusion h
        | inf b => exact MRes.noConfusion h
        | arr xs => exact MRes.noConfusion h
        | obj es => exact MRes.noConfusion h
        | str guid =>
          cases hav : get_avatar pd data with
          | error e => simp only [hav] at h; exact MRes.noConfusion h
          | ok avatarUrl =>
            simp only [hav] at h
            cases hpop : pyDictPop summary "isActive" with
            | error e => simp only [hpop] at h; exact MRes.noConfusion h
            | ok pr =>
              obtain ⟨act, summary2⟩ := pr
              simp only [hpop] at h
              cases hlang : lookupStr summary2 "language" with
              | none => simp only [hlang] at h; exact MRes.noConfusion h
              | some lv =>
                simp only [hlang] at h
                cases lv with
                | null => exact MRes.noConfusion h
                | bool b => exact MRes.noConfusion h
                | num n => exact MRes.noConfusion h
                | jfloat a b c => exact MRes.noConfusion h
                | nan => exact MRes.noConfusion h
                | inf b => exact MRes.noConfusion h
                | arr xs => exact MRes.noConfusion h
                | obj es => exact MRes.noConfusion h
                | str lang =>
                  cases hcfg : configLoop guid
                      (objInsert summary2 "language_desc"
                        (.str (conv (String.mk (lang.data.take 2)))))
                      (wSetProfileShared (wSetProfileLocal w guid act k)
                        guid k) with
                  | err e wc => simp only [hcfg] at h; exact MRes.noConfusion h
                  | ok u wc =>
                    simp only [hcfg] at h
                    obtain ⟨gl', hgl', hgs, hpres, hsort, hsome⟩ :=
                      ih (k + 1) (gs0 ++ [guid]) _ gs w2 h
                    have hcfgP := configLoop_profiles guid
                      (objInsert summary2 "language_desc"
                        (.str (conv (String.mk (lang.data.take 2)))))
                      (wSetProfileShared (wSetProfileLocal w guid act k)
                        guid k)
                    rw [hcfg] at hcfgP
                    simp only [resWorld, wSetProfileShared_ldb_profiles,
                      wSetProfileLocal_ldb_profiles,
                      wSetProfileShared_sdb_profiles,
                      wSetProfileLocal_sdb_profiles] at hcfgP
                    simp only [wSetProfileConfig_ldb_profiles,
                      wSetProfileConfig_sdb_profiles, hcfgP.1, hcfgP.2]
                      at hpres hsort hsome
                    refine ⟨guid :: gl', ?_, ?_, ?_, ?_, ?_⟩
                    · simp only [loopGuids, hsum, hguid, hgl', Option.map]
                    · rw [hgs]
                      simp
                    · intro g hg
                      rw [List.mem_cons] at hg
                      push_neg at hg
                      have h1 := hpres g hg.2
                      constructor
                      · rw [h1.1, profSortL_aupsert_ne _ _ _ _ hg.1]
                      · rw [h1.2, profSortS, alookup_aupsert_ne _ _ _ _ hg.1]
                        rfl
                    · intro hnd i hi
                      rw [List.nodup_cons] at hnd
                      cases i with
                      | zero =>
                        have h1 := hpres guid hnd.1
                        constructor
                        · rw [List.get, h1.1, profSortL_aupsert_self]
                          simp
                        · rw [List.get, h1.2, profSortS, alookup_aupsert_self]
                          simp
                      | succ i =>
                        have h1 := hsort hnd.2 i (by simpa using hi)
                        have harith : k + 1 + i = k + (i + 1) := by omega
                        rw [harith] at h1
                        exact h1
                    · intro g
                      rw [hsome g, profSortL_isSome, profSortL_isSome,
                        alookup_aupsert_isSome, List.mem_cons]
                      constructor
                      · intro hc
                        rcases hc with (hc | hc) | hc
                        · exact Or.inr (Or.inl hc)
                        · exact Or.inl hc
                        · exact Or.inr (Or.inr hc)
                      · intro hc
                        rcases hc with hc | hc | hc
                        · exact Or.inl (Or.inr hc)
                        · exact Or.inl (Or.inl hc)
                        · exact Or.inr hc

/-- Boolean containment agrees with membership for guid lists. -/
theorem containsStr_iff (l : List String) (g : String) :
    l.contains g = true ↔ g ∈ l := by
  induction l with
  | nil => simp
  | cons a rest ih => simp [List.contains_cons, ih]

/-- The deletion fold never adds entries. -/
theorem deleteFold_preserve_none (current : List String) :
    ∀ (lg : List String) (w : World) (g : String),
    (profSortL w.ldb.profiles g = none →
      profSortL (deleteFold current lg w).ldb.profiles g = none) ∧
    (profSortS w.sdb.profiles g = none →
      profSortS (deleteFold current lg w).sdb.profiles g = none) := by
  intro lg
  induction lg with
  | nil => intro w g; exact ⟨fun h => h, fun h => h⟩
  | cons g0 rest ih =>
    intro w g
    constructor
    · intro h
      rw [deleteFold]
      by_cases hc : current.contains g0 = true
      · rw [if_pos hc]
        exact (ih w g).1 h
      · rw [if_neg hc]
        apply (ih _ g).1
        by_cases hgg : g = g0
        · subst hgg
          simp only [wDeleteProfile_ldb_profiles, profSortL, alookup_filter_self]
          rfl
        · simp only [wDeleteProfile_ldb_profiles]
          rw [profSortL, alookup_filter_ne _ _ _ hgg]
          exact h
    · intro h
      rw [deleteFold]
      by_cases hc : current.contains g0 = true
      · rw [if_pos hc]
        exact (ih w g).2 h
      · rw [if_neg hc]
        apply (ih _ g).2
        by_cases hgg : g = g0
        · subst hgg
          simp only [wDeleteProfile_sdb_profiles, profSortS, alookup_filter_self]
        · simp only [wDeleteProfile_sdb_profiles]
          rw [profSortS, alookup_filter_ne _ _ _ hgg]
          exact h

/-- A stale guid occurring in the walked list is cleared from both
stores by the deletion fold. -/
theorem deleteFold_deletes (current : List String) :
    ∀ (lg : List String) (w : World) (g : String),
    g ∈ lg → ¬ g ∈ current →
    profSortL (deleteFold current lg w).ldb.profiles g = none ∧
    profSortS (deleteFold current lg w).sdb.profiles g = none := by
  intro lg
  induction lg with
  | nil =>
    intro w g hmem
    exact absurd hmem (by simp)
  | cons g0 rest ih =>
    intro w g hmem hnc
    rw [deleteFold]
    rcases List.mem_cons.mp hmem with hg | hg
    · subst hg
      have hc : ¬ current.contains g = true := by
        rw [containsStr_iff]
        exact hnc
      rw [if_neg hc]
      constructor
      · apply (deleteFold_preserve_none current rest _ g).1
        simp only [wDeleteProfile_ldb_profiles, profSortL, alookup_filter_self]
        rfl
      · apply (deleteFold_preserve_none current rest _ g).2
        simp only [wDeleteProfile_sdb_profiles, profSortS, alookup_filter_self]
    · by_cases hc : current.contains g0 = true
      · rw [if_pos hc]
        exact ih w g hg hnc
      · rw [if_neg hc]
        exact ih _ g hg hnc

/-- The deletion fold leaves every current guid untouched. -/
theorem deleteFold_keeps (current : List String) :
    ∀ (lg : List String) (w : World) (g : String), g ∈ current →
    profSortL (deleteFold current lg w).ldb.profiles g
      = profSortL w.ldb.profiles g ∧
    profSortS (deleteFold current lg w).sdb.profiles g
      = profSortS w.sdb.profiles g := by
  intro lg
  induction lg with
  | nil => intro w g _; exact ⟨rfl, rfl⟩
  | cons g0 rest ih =>
    intro w g hmem
    rw [deleteFold]
    by_cases hc : current.contains g0 = true
    · rw [if_pos hc]
      exact ih w g hmem
    · rw [if_neg hc]
      have hne : g ≠ g0 := by
        intro hgg
        subst hgg
        exact hc ((containsStr_iff current g).mpr hmem)
      have h2 := ih (wDeleteProfile w g0) g hmem
      constructor
      · rw [h2.1]
        simp only [wDeleteProfile_ldb_profiles]
        rw [profSortL, alookup_filter_ne _ _ _ hne]
        rfl
      · rw [h2.2]
        simp only [wDeleteProfile_sdb_profiles]
        rw [profSortS, alookup_filter_ne _ _ _ hne]
        rfl

/-- The stale-profile cleanup always succeeds, and its only effect on the
profile tables is the deletion fold (the active-profile fixup and the
setting clears do not move sort orders). -/
theorem delete_phase_profiles (current : List String) (w : World) :
    resIsOk (delete_non_existing_profiles current w) = true ∧
    ∀ g,
      profSortL (resWorld (delete_non_existing_profiles current w)).ldb.profiles g
        = profSortL (deleteFold current (w.ldb.profiles.map (fun p => p.1))
            w).ldb.profiles g ∧
      profSortS (resWorld (delete_non_existing_profiles current w)).sdb.profiles g
        = profSortS (deleteFold current (w.ldb.profiles.map (fun p => p.1))
            w).sdb.profiles g := by
  constructor
  · rfl
  · intro g
    constructor
    · simp only [delete_non_existing_profiles, resWorld, wSuspend_ldb_profiles]
      split <;> (try split) <;> (try split) <;>
        simp [profSortL_switch]
    · simp only [delete_non_existing_profiles, resWorld, wSuspend_sdb_profiles]
      split <;> (try split) <;> (try split) <;> simp

/-- C6: for every successful parse_profiles run, each walked guid is
stored in both the local and the shared store with sort order equal to
its zero-based position in the profile list, and every guid previously
known to the local store but absent from the freshly parsed list is
removed from both stores. -/
theorem C6_parse_profiles_sort_and_gc
    (conv : String → String) (data : JVal) (w : World)
    (entries : List (String × JVal)) (gl : List String)
    (hlist : jgraph_get_list "profilesList" data = .ok entries)
    (hgl : loopGuids entries = some gl)
    (hnd : gl.Nodup)
    (hok : resIsOk (parse_profiles conv data w) = true) :
    (∀ (i : Nat) (hi : i < gl.length),
      profSortL (resWorld (parse_profiles conv data w)).ldb.profiles
          (gl.get ⟨i, hi⟩) = some i ∧
      profSortS (resWorld (parse_profiles conv data w)).sdb.profiles
          (gl.get ⟨i, hi⟩) = some i)
  ∧ (∀ g, (profSortL w.ldb.profiles g).isSome = true → ¬ g ∈ gl →
      profSortL (resWorld (parse_profiles conv data w)).ldb.profiles g = none ∧
      profSortS (resWorld (parse_profiles conv data w)).sdb.profiles g
        = none) := by
  cases hbody : parseProfilesBody conv data entries w with
  | err e w1 =>
    have hP : parse_profiles conv data w = .err (.invalidProfilesError none) w1 := by
      simp only [parse_profiles, hlist, hbody]
    rw [hP] at hok
    exact Bool.noConfusion hok
  | ok u w2 =>
    have hP : parse_profiles conv data w = .ok u w2 := by
      simp only [parse_profiles, hlist, hbody]
    rw [hP]
    simp only [resWorld]
    by_cases hemp : entries.isEmpty = true
    · rw [parseProfilesBody, if_pos hemp] at hbody
      exact MRes.noConfusion hbody
    · rw [parseProfilesBody, if_neg hemp] at hbody
      cases hloop : profileLoop conv data entries 0 [] w with
      | err e w1 => rw [hloop] at hbody; exact MRes.noConfusion hbody
      | ok gs w1 =>
        simp only [hloop] at hbody
        obtain ⟨gl2, hgl2, hgs, hpres, hsort, hsome⟩ :=
          profileLoop_spec conv data entries 0 [] w gs w1 hloop
        rw [hgl] at hgl2
        injection hgl2 with hgl2
        subst hgl2
        simp only [List.nil_append] at hgs
        subst hgs
        have hD := delete_phase_profiles gs w1
        rw [hbody] at hD
        simp only [resWorld] at hD
        constructor
        · intro i hi
          have hkeep := deleteFold_keeps gs
            (w1.ldb.profiles.map (fun p => p.1)) w1 (gs.get ⟨i, hi⟩)
            (List.get_mem _ _ _)
          have hs := hsort hnd i hi
          constructor
          · rw [(hD.2 _).1, hkeep.1, hs.1]
            simp
          · rw [(hD.2 _).2, hkeep.2, hs.2]
            simp
        · intro g hknown hng
          have hsome1 := (hsome g).mpr (Or.inl hknown)
          have hmem : g ∈ w1.ldb.profiles.map (fun p => p.1) := by
            apply mem_fst_of_alookup_isSome
            rw [← profSortL_isSome]
            exact hsome1
          have hdel := deleteFold_deletes gs
            (w1.ldb.profiles.map (fun p => p.1)) w1 g hmem hng
          exact ⟨by rw [(hD.2 g).1, hdel.1], by rw [(hD.2 g).2, hdel.2]⟩

/-- C6 witness: the spec example: list [A, B, C] against a local store
knowing [A, D]: afterwards A, B, C carry sort orders 0, 1, 2 in both
stores and D is gone from both. -/
theorem C6_parse_profiles_sort_and_gc_witness :
    (∀ (i : Nat) (hi : i < (["A", "B", "C"] : List String).length),
      profSortL (resWorld (parse_profiles convTest c6data c6w)).ldb.profiles
          ((["A", "B", "C"] : List String).get ⟨i, hi⟩) = some i ∧
      profSortS (resWorld (parse_profiles convTest c6data c6w)).sdb.profiles
          ((["A", "B", "C"] : List String).get ⟨i, hi⟩) = some i)
  ∧ (∀ g, (profSortL c6w.ldb.profiles g).isSome = true →
      ¬ g ∈ (["A", "B", "C"] : List String) →
      profSortL (resWorld (parse_profiles convTest c6data c6w)).ldb.profiles g
        = none ∧
      profSortS (resWorld (parse_profiles convTest c6data c6w)).sdb.profiles g
        = none) :=
  C6_parse_profiles_sort_and_gc convTest c6data c6w c6entries
    ["A", "B", "C"] rfl rfl (by decide) rfl

/-- C8 witness: the spec example: levels 10 and 50 with country maximum
70 and current maturity 70 yield an effective last value of 70 and
current index 1. -/
theorem C8_parental_control_contract_witness :
    extract_parental_control_data c8page (.num 70)
      = .ok (.obj [("rating_levels", .arr
          [.obj [("level", .num 0), ("value", .num 10), ("label", .str "L1"),
                 ("description", .str "D1")],
           .obj [("level", .num 1), ("value", .num 70), ("label", .str "L2"),
                 ("description", .str "D2")]]),
          ("current_level_index", .num 1)])
  ∧ ∃ ps, pcCollect (.num 70) c8items.length c8items 0 = .ok ps ∧
      ps.length = c8items.length ∧
      c8r = .obj [("rating_levels", .arr (ps.map Prod.snd)),
                  ("current_level_index",
                   .num (lastMatchFrom (.num 70) ps 0 ((c8items.length : Int) - 1)))] ∧
      (∀ (j : Nat) (hj : j < ps.length) (hj2 : j < c8items.length),
        (j = c8items.length - 1 → (ps.get ⟨j, hj⟩).1 = .num 70)
        ∧ (j ≠ c8items.length - 1 →
            ∃ lv n, pyGetItem (c8items.get ⟨j, hj2⟩) (.str "level") = .ok lv ∧
              pyInt lv = .ok n ∧ (ps.get ⟨j, hj⟩).1 = .num n)
        ∧ ∃ lab des, (ps.get ⟨j, hj⟩).2
            = .obj [("level", .num j), ("value", (ps.get ⟨j, hj⟩).1),
                    ("label", lab), ("description", des)]) ∧
      ((∀ (j : Nat) (hj : j < ps.length),
          pyEq (ps.get ⟨j, hj⟩).1 (.num 70) = false) →
        lastMatchFrom (.num 70) ps 0 ((c8items.length : Int) - 1)
          = (c8items.length : Int) - 1) ∧
      (∀ (j : Nat) (hj : j < ps.length),
        pyEq (ps.get ⟨j, hj⟩).1 (.num 70) = true →
        (∀ (j2 : Nat) (hj2 : j2 < ps.length), j < j2 →
          pyEq (ps.get ⟨j2, hj2⟩).1 (.num 70) = false) →
        lastMatchFrom (.num 70) ps 0 ((c8items.length : Int) - 1) = (j : Int)) :=
  ⟨rfl,
   (C8_parental_control_contract c8page (.num 70)).1 c8ctx (.num 70) c8items
     c8r rfl rfl rfl rfl⟩

end NF
